import Mathlib

/-!
Shallow embedding of `src/VegaWrapper.js` (mw-graph-shared): the protocol
translator / host-allowlist engine (`sanitizeHost`, `testHost`,
`_getProtocolDomains`, `removeColon`, `sanitizeUrl`, `validate`,
`_validateExternalService`) and the response normalizer
(`parseMWApiResponse`, `parseDataOrThrow`, `dataParser`).

JavaScript strings are Lean `String`s; query objects are association lists;
fallible code returns `Except VegaError`.  External collaborators (the
`domain-validator` matcher, `JSON.parse`, the injected URL parser/formatter,
`parseWikidataValue`) are modelled at their interface, as noted at each
definition.  JS builtins used by the source (`decodeURIComponent`,
`encodeURIComponent`, `String.prototype.trim`, `parseInt`, `parseFloat`) are
implemented directly; numeric parsing is exact (rationals) rather than IEEE.
-/

set_option maxRecDepth 4000

namespace VW

/-! ## Character and string helpers (JS builtins, modelled byte-exactly for ASCII) -/

/-- Lower-case ASCII letter, as in the regex class `[a-z]`. -/
def isLowerAZ (c : Char) : Bool :=
  97 ≤ c.toNat && c.toNat ≤ 122

/-- Decimal digit, as in the regex class `[0-9]`. -/
def isDigit09 (c : Char) : Bool :=
  48 ≤ c.toNat && c.toNat ≤ 57

/-- Value of one hex digit, if `c` is one (`0-9a-fA-F`). -/
def hexVal (c : Char) : Option Nat :=
  if 48 ≤ c.toNat && c.toNat ≤ 57 then some (c.toNat - 48)
  else if 97 ≤ c.toNat && c.toNat ≤ 102 then some (c.toNat - 87)
  else if 65 ≤ c.toNat && c.toNat ≤ 70 then some (c.toNat - 55)
  else none

/-- Upper-case hex digit for a value below 16. -/
def hexDigitU (n : Nat) : Char :=
  if n < 10 then Char.ofNat (48 + n) else Char.ofNat (55 + n)

/-- Percent-decoding of a character list: a `%` followed by two hex digits
becomes the corresponding byte; a `%` not followed by two hex digits is a
`URIError`, reported as `none`.  Models the JS builtin `decodeURIComponent`
(multi-byte UTF-8 sequences are simplified to byte-wise decoding, which is
identical on the ASCII inputs this code distinguishes). -/
def decodeList : List Char → Option (List Char)
  | [] => some []
  | '%' :: c1 :: c2 :: rest =>
    match hexVal c1, hexVal c2 with
    | some v1, some v2 => (decodeList rest).map (fun l => Char.ofNat (16 * v1 + v2) :: l)
    | _, _ => none
  | '%' :: _ :: [] => none
  | '%' :: [] => none
  | c :: rest => if c == '%' then none else (decodeList rest).map (fun l => c :: l)

/-- Modelled JS builtin `decodeURIComponent`; `none` is a thrown `URIError`. -/
def decodeURIComponent (s : String) : Option String :=
  (decodeList s.data).map String.mk

/-- UTF-8 bytes of a code point. -/
def utf8Bytes (n : Nat) : List Nat :=
  if n < 128 then [n]
  else if n < 2048 then [192 + n / 64, 128 + n % 64]
  else if n < 65536 then [224 + n / 4096, 128 + (n / 64) % 64, 128 + n % 64]
  else [240 + n / 262144, 128 + (n / 4096) % 64, 128 + (n / 64) % 64, 128 + n % 64]

/-- Characters left unescaped by JS `encodeURIComponent`. -/
def isUriUnreserved (c : Char) : Bool :=
  (65 ≤ c.toNat && c.toNat ≤ 90) || isLowerAZ c || isDigit09 c ||
  c == '-' || c == '_' || c == '.' || c == '!' || c == '~' || c == '*' ||
  c == '\'' || c == '(' || c == ')'

/-- Percent-escape of one byte, upper-case hex as JS produces. -/
def percentByte (b : Nat) : List Char :=
  ['%', hexDigitU (b / 16), hexDigitU (b % 16)]

/-- Modelled JS builtin `encodeURIComponent`. -/
def encodeURIComponent (s : String) : String :=
  String.mk (s.data.flatMap (fun c =>
    if isUriUnreserved c then [c] else (utf8Bytes c.toNat).flatMap percentByte))

/-- White space for JS `String.prototype.trim` (the common cases: ASCII
whitespace, NBSP, BOM, line and paragraph separators). -/
def isJsSpace (c : Char) : Bool :=
  c == ' ' || c == '\t' || c == '\n' || c == '\r' || c == '\x0b' || c == '\x0c' ||
  c == ' ' || c == ' ' || c == ' ' || c == '﻿'

/-- Modelled JS builtin `String.prototype.trim`. -/
def jsTrim (s : String) : String :=
  String.mk (((s.data.dropWhile isJsSpace).reverse.dropWhile isJsSpace).reverse)

/-- JS `str.replace(' ', '_')` with a plain string pattern: replaces only the
first occurrence. -/
def replaceFirstSpace : List Char → List Char
  | [] => []
  | c :: rest => if c == ' ' then '_' :: rest else c :: replaceFirstSpace rest

/-- Association-list lookup, the model of reading a property of a JS
plain-object query (`urlParts.query[k]`); `none` is `undefined`. -/
def getQ (q : List (String × String)) (k : String) : Option String :=
  (q.find? (fun p => p.1 == k)).map (fun p => p.2)

/-- JS truthiness of a possibly-missing string property: `undefined` and the
empty string are falsy. -/
def truthyStr : Option String → Bool
  | some s => s != ""
  | none => false

/-- Set a key in an association list: overwrite in place if present, else
append (the JS object-assignment order `datalib.extend` produces). -/
def setQ (q : List (String × String)) (k v : String) : List (String × String) :=
  if (q.find? (fun p => p.1 == k)).isSome then
    q.map (fun p => if p.1 == k then (k, v) else p)
  else q ++ [(k, v)]

/-- Model of `datalib.extend(target, source)`: source keys overwrite target. -/
def extendQ (target source : List (String × String)) : List (String × String) :=
  source.foldl (fun acc kv => setQ acc kv.1 kv.2) target

/-! ## Regex tests used by the source, implemented directly -/

/-- Test of `/^\/[^|]+$/` (lines 174, 226, 252): a leading slash followed by
at least one character, none of them a pipe. -/
def validTitlePath (s : String) : Bool :=
  match s.data with
  | c :: rest => c == '/' && !rest.isEmpty && rest.all (fun x => x != '|')
  | [] => false

/-- Test of `/^\/wiki\/.+$/` (line 159).  JS `.` does not match line
terminators, so the part after `/wiki/` must be nonempty and free of them. -/
def wikiSlashPathOk (s : String) : Bool :=
  ("/wiki/".data.isPrefixOf s.data) &&
  (let rest := s.data.drop 6
   !rest.isEmpty &&
     rest.all (fun c => c != '\n' && c != '\r' && c != ' ' && c != ' '))

/-- Test of `/^\/api\//` (line 210). -/
def apiPathOk (s : String) : Bool :=
  "/api/".data.isPrefixOf s.data

/-- Test of `/^-?[0-9]+$/` (integer parameters, line 348). -/
def intRegexOk (s : String) : Bool :=
  match s.data with
  | '-' :: ds => !ds.isEmpty && ds.all isDigit09
  | ds => !ds.isEmpty && ds.all isDigit09

/-- Test of `/^-?[0-9]+\.?[0-9]*$/` (float parameters, line 348). -/
def floatRegexOk (s : String) : Bool :=
  let body : List Char → Bool := fun ds =>
    let ip := ds.takeWhile isDigit09
    let rest := ds.dropWhile isDigit09
    !ip.isEmpty &&
      (rest.isEmpty || (rest.head? == some '.' && (rest.drop 1).all isDigit09))
  match s.data with
  | '-' :: ds => body ds
  | ds => body ds

/-- Character class of the style regex `[-_0-9a-z]` (line 327). -/
def styleCharOk (c : Char) : Bool :=
  c == '-' || c == '_' || isDigit09 c || isLowerAZ c

/-- Test of the style regex exactly as written in the source,
`/^[-_0-9a-z]$/` (line 327): it has no quantifier, so it matches only
single-character strings. -/
def styleRegexOk (s : String) : Bool :=
  match s.data with
  | [c] => styleCharOk c
  | _ => false

/-- Numeric value of a digit list. -/
def digitsVal (ds : List Char) : Nat :=
  ds.foldl (fun a c => a * 10 + (c.toNat - 48)) 0

/-- Modelled JS `parseInt` on strings matching `intRegexOk` (exact; the JS
double rounding on astronomically long digit strings is not modelled). -/
def parseJsInt (s : String) : Int :=
  match s.data with
  | '-' :: ds => -(digitsVal ds : Int)
  | ds => (digitsVal ds : Int)

/-- Modelled JS `parseFloat` on strings matching `floatRegexOk`, exact as a
rational: integer part plus fractional digits over the matching power of
ten. -/
def parseJsFloat (s : String) : Rat :=
  let mag : List Char → Rat := fun ds =>
    let ip := ds.takeWhile isDigit09
    let rest := ds.dropWhile isDigit09
    let fp := (rest.drop 1).takeWhile isDigit09
    mkRat ((digitsVal ip * 10 ^ fp.length + digitsVal fp : Nat) : Int) (10 ^ fp.length)
  match s.data with
  | '-' :: ds => -(mag ds)
  | ds => mag ds

/-- The compound-scheme repair of line 126:
`opt.url.replace(/^([a-z]+:)https?:\/\//, '$1//')`. -/
def fixUrl (s : String) : String :=
  let letters := s.data.takeWhile isLowerAZ
  let rest := s.data.drop letters.length
  if letters.isEmpty then s
  else
    match rest with
    | ':' :: r =>
      if "http://".data.isPrefixOf r then
        String.mk (letters ++ (':' :: '/' :: '/' :: r.drop 7))
      else if "https://".data.isPrefixOf r then
        String.mk (letters ++ (':' :: '/' :: '/' :: r.drop 8))
      else s
    | _ => s

/-- Test of `/^\/\//` on the (repaired) raw URL (line 129). -/
def isProtoRelativeUrl (s : String) : Bool :=
  "//".data.isPrefixOf s.data

/-! ## Data model -/

/-- Static configuration given to the `VegaWrapper` constructor: the trust
flag, the per-protocol allowlist (`domains`, whose keys may carry or omit the
trailing colon) and the host rename table (`domainMap`). -/
structure Config where
  isTrusted : Bool
  domains : List (String × List String)
  domainMap : List (String × String)

/-- Parsed URL parts, the record the injected `parseUrl` collaborator
returns.  `protocol` is `none` when the URL had no explicit scheme (node.js
parsing of protocol-relative URLs); `query` maps parameter names to string
values; `isRelativeHost` is the collaborator's flag used by
`_validateExternalService`. -/
structure UrlParts where
  host : String
  protocol : Option String
  pathname : String
  query : List (String × String)
  isRelativeHost : Bool

/-- The request descriptor fields `sanitizeUrl` reads (`opt`). -/
structure Opt where
  url : String
  type : Option String
  headers : List (String × String)

/-- The finalized parts handed to the `formatUrl` collaborator, together
with the fields `sanitizeUrl` sets on `opt` (`graphProtocol`,
`addCorsOrigin`, `headers`). -/
structure SanResult where
  host : String
  protocol : String
  pathname : String
  query : List (String × String)
  graphProtocol : String
  addCorsOrigin : Bool
  headers : List (String × String)
deriving Repr, DecidableEq

/-- Errors thrown by the translator.  Each constructor corresponds to one
`throw new Error(...)` site of the source; the doc string of each gives the
literal message. -/
inductive VegaError where
  /-- Line 134: literally the text
  URL hostname is not whitelisted: followed by `opt.url`. -/
  | hostNotWhitelisted (url : String)
  /-- Line 160: wikititle: http(s) links must begin with /wiki/ prefix. -/
  | wikiPrefixErr
  /-- Line 172: wikititle: query parameters are not allowed. -/
  | nonEmptyQueryErr
  /-- Lines 175, 227, 253: `who` followed by the text
  : invalid title (`who` is the literal `wikititle` or `wikiraw`, or
  `urlParts.protocol` for tabular/tabularinfo). -/
  | invalidTitle (who : String)
  /-- Line 182: the open() action only allows wikititle links. -/
  | openProtoErr
  /-- Line 190: HTTP and HTTPS protocols are not supported for untrusted
  graphs. -/
  | untrustedHttpErr
  /-- Line 211: wikirest: protocol must begin with the /api/ prefix. -/
  | restPrefixErr
  /-- Line 362: `protocol` followed by the text
  : protocol is disabled: followed by `url`. -/
  | protocolDisabled (protocol url : String)
  /-- Line 371: `protocol` followed by the text
  : URL must either be relative or use one of the allowed hosts: `url`. -/
  | hostNotAllowed (protocol url : String)
  /-- Line 289: wikidatasparql: missing query parameter in: `url`. -/
  | missingSparqlQuery (url : String)
  /-- Line 305: `graphProtocol` missing ids or query parameter in: `url`. -/
  | missingIdsOrQuery (graphProtocol url : String)
  /-- Line 319: mapsnapshot: missing required parameters. -/
  | missingSnapshotParams
  /-- Line 345: mapsnapshot: parameter `name` is not set. -/
  | paramNotSet (name : String)
  /-- Line 349: mapsnapshot: parameter `name` is not a number. -/
  | paramNotNumber (name : String)
  /-- Line 353: mapsnapshot: parameter `name` is not valid. -/
  | paramNotValid (name : String)
  /-- Line 328: mapsnapshot: if style is given, it must be
  letters/numbers/dash/underscores only. -/
  | invalidStyle
  /-- Line 336: Unknown protocol `opt.url`. -/
  | unknownProtocol (url : String)
  /-- A `URIError` thrown by the JS builtin `decodeURIComponent` on a
  malformed percent sequence. -/
  | uriError
  /-- A JS `TypeError` (reading a property of `undefined`), reachable in
  `_validateExternalService` when a relative-host request resolves to a
  first configured domain that is not in the http/https allowlists. -/
  | jsTypeError
deriving Repr, DecidableEq

/-! ## Host allowlist validator -/

/-- Model of the external `domain-validator` collaborator, from the spec:
`makeValidator(domains, withSubdomains).test(host)` accepts a host equal to
a listed domain or, when `withSubdomains` is set, any subdomain of one
(i.e. the host ends in a dot followed by the domain). -/
def validatorTest (ds : List String) (withSubdomains : Bool) (host : String) : Bool :=
  ds.any (fun d => host == d ||
    (withSubdomains && ('.' :: d.data).isSuffixOf host.data))

/-- Line 114, `removeColon`: strip one trailing colon. -/
def removeColon (protocol : String) : String :=
  if protocol != "" && protocol.data.getLast? == some ':' then
    String.mk (protocol.data.dropLast)
  else protocol

/-- Line 110, `_getProtocolDomains`: the configured domain list for a
protocol, trying the colon-suffixed key first, then the bare one. -/
def getProtocolDomains (cfg : Config) (protocol : String) : Option (List String) :=
  match (cfg.domains.find? (fun p => p.1 == protocol)).map (fun p => p.2) with
  | some ds => some ds
  | none => (cfg.domains.find? (fun p => p.1 == removeColon protocol)).map (fun p => p.2)

/-- Line 91, `testHost`: test a host against the allowed domains of a
protocol.  The validator cache of the source is semantically transparent
(it memoizes a pure function of the immutable configuration), so the model
computes the matcher on every call.  The second `makeValidator` argument is
the source's `protocol === 'https:' || protocol === 'http:'`. -/
def testHost (cfg : Config) (protocol host : String) : Bool :=
  match getProtocolDomains cfg protocol with
  | some ds => validatorTest ds (protocol == "https:" || protocol == "http:") host
  | none => false

/-- Result of `sanitizeHost`. -/
structure SanHost where
  host : String
  protocol : String
deriving Repr, DecidableEq

/-- Line 75, the domain rename `(this.domainMap && this.domainMap[host]) || host`
(a falsy mapped value falls back to the original host). -/
def applyDomainMap (cfg : Config) (host : String) : String :=
  match (cfg.domainMap.find? (fun p => p.1 == host)).map (fun p => p.2) with
  | some m => if m == "" then host else m
  | none => host

/-- Line 73, `sanitizeHost`: rename the host, then try `https:` and `http:`
in that order; `none` models the JS `undefined` return.  (The source binds
the renamed host to a local variable once; here `applyDomainMap` is simply
repeated, which is the same pure value.) -/
def sanitizeHost (cfg : Config) (host : String) : Option SanHost :=
  if testHost cfg "https:" (applyDomainMap cfg host) then
    some ⟨applyDomainMap cfg host, "https:"⟩
  else if testHost cfg "http:" (applyDomainMap cfg host) then
    some ⟨applyDomainMap cfg host, "http:"⟩
  else none

/-! ## Protocol translator -/

/-- Line 343, `validate`: presence, numeric-format and range check of one
mapsnapshot parameter (the returned number is discarded by every caller). -/
def validate (obj : List (String × String)) (name : String) (mn mx : Int)
    (isFloat : Bool) : Except VegaError Unit :=
  match getQ obj name with
  | none => .error (.paramNotSet name)
  | some value =>
    if !(if isFloat then floatRegexOk value else intRegexOk value) then
      .error (.paramNotNumber name)
    else
      let v : Rat := if isFloat then parseJsFloat value else ((parseJsInt value : Int) : Rat)
      if v < (mn : Rat) || (mx : Rat) < v then .error (.paramNotValid name)
      else .ok ()

/-- Lines 358-373, `_validateExternalService`: resolve the external-service
scheme's allowlist; on a relative-host request adopt its first domain and
that domain's `sanitizeHost` protocol, otherwise keep the already-sanitized
protocol; finally re-test the chosen host against the service scheme's own
allowlist.  Returns the updated (host, protocol) pair.  (The source runs
the final `testHost` check once after the branch; here it is written at the
end of each branch, over the host that branch chose — the same test on the
same value.) -/
def validateExternalService (cfg : Config) (host protocol : String)
    (isRelativeHost : Bool) (shProtocol : String) (orride : Option String)
    (url : String) : Except VegaError (String × String) :=
  match getProtocolDomains cfg (orride.getD protocol) with
  | none => .error (.protocolDisabled (orride.getD protocol) url)
  | some ds =>
    if isRelativeHost then
      match ds with
      | [] => .error .jsTypeError
      | d :: _ =>
        match sanitizeHost cfg d with
        | none => .error .jsTypeError
        | some sh2 =>
          if testHost cfg (orride.getD protocol) d then .ok (d, sh2.protocol)
          else .error (.hostNotAllowed (orride.getD protocol) url)
    else
      if testHost cfg (orride.getD protocol) host then .ok (host, shProtocol)
      else .error (.hostNotAllowed (orride.getD protocol) url)

/-- Lines 167-179, the shared tail of the open-action `wikititle:` case
(also reached by fall-through from `http:`/`https:`): forbid query
parameters, validate the decoded trimmed title, build the `/wiki/` pathname
and force the sanitized host's protocol. -/
def openWikititle (sh : SanHost) (opt : Opt) (parts : UrlParts)
    (decoded graphProtocol : String) : Except VegaError SanResult :=
  if !parts.query.isEmpty then .error .nonEmptyQueryErr
  else if !validTitlePath decoded then .error (.invalidTitle "wikititle")
  else .ok { host := sh.host, protocol := sh.protocol,
             pathname := "/wiki/" ++
               encodeURIComponent (String.mk (replaceFirstSpace (decoded.drop 1).data)),
             query := parts.query, graphProtocol := graphProtocol,
             addCorsOrigin := false, headers := opt.headers }

/-- Line 137-142: the resolved transport protocol and the final
protocol-relative flag.  A missing (or JS-falsy empty) parsed protocol
adopts the sanitized host's protocol and forces the relative flag. -/
def resolvedProtocol (p? : Option String) (shProtocol : String) (isRel0 : Bool) :
    String × Bool :=
  match p? with
  | some p => if p == "" then (shProtocol, true) else (p, isRel0)
  | none => (shProtocol, true)

/-- Lines 187-195, the `http:`/`https:` case of the fetch switch: throw for
untrusted callers, otherwise keep the URL parts verbatim. -/
def httpFetchCase (cfg : Config) (opt : Opt) (parts : UrlParts) (sh : SanHost)
    (protocol url : String) : Except VegaError SanResult :=
  if !cfg.isTrusted then .error .untrustedHttpErr
  else .ok { host := sh.host, protocol := protocol, pathname := parts.pathname,
             query := parts.query, graphProtocol := protocol,
             addCorsOrigin := false, headers := opt.headers }

/-- Lines 197-204, the `wikiapi:` case: force `/w/api.php`, extend the
query with the JSON format parameters, set the CORS flag. -/
def wikiapiCase (cfg : Config) (opt : Opt) (parts : UrlParts) (sh : SanHost)
    (protocol url : String) : Except VegaError SanResult :=
  .ok { host := sh.host, protocol := sh.protocol, pathname := "/w/api.php",
        query := extendQ parts.query [("format", "json"), ("formatversion", "2")],
        graphProtocol := protocol, addCorsOrigin := true, headers := opt.headers }

/-- Lines 206-216, the `wikirest:` case: require the `/api/` prefix, keep
path and query. -/
def wikirestCase (cfg : Config) (opt : Opt) (parts : UrlParts) (sh : SanHost)
    (protocol url : String) : Except VegaError SanResult :=
  if !apiPathOk parts.pathname then .error .restPrefixErr
  else .ok { host := sh.host, protocol := sh.protocol, pathname := parts.pathname,
             query := parts.query, graphProtocol := protocol,
             addCorsOrigin := false, headers := opt.headers }

/-- Lines 218-240, the `wikiraw:` case: the decoded path (sans leading
slash) becomes a page title in a revisions query. -/
def wikirawCase (cfg : Config) (opt : Opt) (parts : UrlParts) (sh : SanHost)
    (protocol url : String) : Except VegaError SanResult :=
  match decodeURIComponent parts.pathname with
  | none => .error .uriError
  | some d =>
    if !validTitlePath d then .error (.invalidTitle "wikiraw")
    else .ok { host := sh.host, protocol := sh.protocol, pathname := "/w/api.php",
               query := [("format", "json"), ("formatversion", "2"),
                         ("action", "query"), ("prop", "revisions"),
                         ("rvprop", "content"), ("titles", d.drop 1)],
               graphProtocol := protocol, addCorsOrigin := true,
               headers := opt.headers }

/-- Lines 242-264, the `tabular:`/`tabularinfo:` case: decoded path becomes
a title in a `jsondata` query; host re-validated against the `tabular:`
allowlist via the External-Service Resolver. -/
def tabularCase (cfg : Config) (opt : Opt) (parts : UrlParts) (sh : SanHost)
    (protocol url : String) : Except VegaError SanResult :=
  match decodeURIComponent parts.pathname with
  | none => .error .uriError
  | some d =>
    if !validTitlePath d then .error (.invalidTitle protocol)
    else
      match validateExternalService cfg sh.host protocol parts.isRelativeHost
          sh.protocol (some "tabular:") url with
      | .error e => .error e
      | .ok (h, p) =>
        .ok { host := h, protocol := p, pathname := "/w/api.php",
              query := [("format", "json"), ("formatversion", "2"),
                        ("action", "jsondata"), ("title", d.drop 1)],
              graphProtocol := protocol, addCorsOrigin := true,
              headers := opt.headers }

/-- Lines 266-272, the `wikifile:` case: rewrite to the file-redirect
special page, keep the query. -/
def wikifileCase (cfg : Config) (opt : Opt) (parts : UrlParts) (sh : SanHost)
    (protocol url : String) : Except VegaError SanResult :=
  .ok { host := sh.host, protocol := sh.protocol,
        pathname := "/wiki/Special:Redirect/file" ++ parts.pathname,
        query := parts.query, graphProtocol := protocol,
        addCorsOrigin := false, headers := opt.headers }

/-- Lines 274-281, the `wikirawupload:` case: external service resolution
against its own scheme, query cleared, path preserved. -/
def wikirawuploadCase (cfg : Config) (opt : Opt) (parts : UrlParts) (sh : SanHost)
    (protocol url : String) : Except VegaError SanResult :=
  match validateExternalService cfg sh.host protocol parts.isRelativeHost
      sh.protocol none url with
  | .error e => .error e
  | .ok (h, p) =>
    .ok { host := h, protocol := p, pathname := parts.pathname, query := [],
          graphProtocol := protocol, addCorsOrigin := false,
          headers := opt.headers }

/-- Lines 283-295, the `wikidatasparql:` case: external service resolution,
query reduced to the `query` parameter, fixed SPARQL endpoint path, an
Accept header requested. -/
def wikidatasparqlCase (cfg : Config) (opt : Opt) (parts : UrlParts) (sh : SanHost)
    (protocol url : String) : Except VegaError SanResult :=
  match validateExternalService cfg sh.host protocol parts.isRelativeHost
      sh.protocol none url with
  | .error e => .error e
  | .ok (h, p) =>
    if !truthyStr (getQ parts.query "query") then
      .error (.missingSparqlQuery url)
    else .ok { host := h, protocol := p,
               pathname := "/bigdata/namespace/wdq/sparql",
               query := [("query", (getQ parts.query "query").getD "")],
               graphProtocol := protocol, addCorsOrigin := false,
               headers := extendQ opt.headers
                 [("Accept", "application/sparql-results+json")] }

/-- Lines 297-309, the `geoshape:`/`geoline:` case: external service
resolution keyed by `geoshape:`, `ids` or `query` required, path forced to
the scheme name, query untouched. -/
def geoshapeCase (cfg : Config) (opt : Opt) (parts : UrlParts) (sh : SanHost)
    (protocol url : String) : Except VegaError SanResult :=
  match validateExternalService cfg sh.host protocol parts.isRelativeHost
      sh.protocol (some "geoshape:") url with
  | .error e => .error e
  | .ok (h, p) =>
    if !(truthyStr (getQ parts.query "ids") ||
         truthyStr (getQ parts.query "query")) then
      .error (.missingIdsOrQuery protocol url)
    else .ok { host := h, protocol := p,
               pathname := "/" ++ removeColon protocol,
               query := parts.query, graphProtocol := protocol,
               addCorsOrigin := false, headers := opt.headers }

/-- Lines 311-333, the `mapsnapshot:` case: external service resolution
keyed by `geoshape:`, the five numeric parameters validated in order, the
optional style checked, the `/img/` pathname assembled from the raw
parameter strings, the query cleared.  (The source's `if (!urlParts.query)`
guard cannot fire in the model, where the parsed query is always an
association list.) -/
def mapsnapshotCase (cfg : Config) (opt : Opt) (parts : UrlParts) (sh : SanHost)
    (protocol url : String) : Except VegaError SanResult :=
  match validateExternalService cfg sh.host protocol parts.isRelativeHost
      sh.protocol (some "geoshape:") url with
  | .error e => .error e
  | .ok (h, p) =>
    match validate parts.query "width" 1 4096 false with
    | .error e => .error e
    | .ok _ =>
      match validate parts.query "height" 1 4096 false with
      | .error e => .error e
      | .ok _ =>
        match validate parts.query "zoom" 0 22 false with
        | .error e => .error e
        | .ok _ =>
          match validate parts.query "lat" (-90) 90 true with
          | .error e => .error e
          | .ok _ =>
            match validate parts.query "lon" (-180) 180 true with
            | .error e => .error e
            | .ok _ =>
              if truthyStr (getQ parts.query "style") &&
                 !styleRegexOk ((getQ parts.query "style").getD "") then
                .error .invalidStyle
              else
                .ok { host := h, protocol := p,
                      pathname := "/img/" ++
                        (if truthyStr (getQ parts.query "style") then
                          (getQ parts.query "style").getD "" else "osm-intl") ++
                        "," ++ (getQ parts.query "zoom").getD "" ++
                        "," ++ (getQ parts.query "lat").getD "" ++
                        "," ++ (getQ parts.query "lon").getD "" ++
                        "," ++ (getQ parts.query "width").getD "" ++
                        "x" ++ (getQ parts.query "height").getD "" ++
                        "@2x.png",
                      query := [], graphProtocol := protocol,
                      addCorsOrigin := false, headers := opt.headers }

/-- Lines 124-341, `sanitizeUrl`: validate and rewrite a request.  The
injected `parseUrl` collaborator's output is the `parts` argument; the
`formatUrl` collaborator is the identity on the finalized parts, so the
model returns them as a `SanResult` (together with the `opt` fields the
source mutates).  Thrown JS errors are `Except.error`.  The source's
switch statement is one function; here each case block is its own
definition above, dispatched in the source's order. -/
def sanitizeUrl (cfg : Config) (opt : Opt) (parts : UrlParts) :
    Except VegaError SanResult :=
  match sanitizeHost cfg parts.host with
  | none => .error (.hostNotWhitelisted (fixUrl opt.url))
  | some sh =>
    let url := fixUrl opt.url
    let protocol := (resolvedProtocol parts.protocol sh.protocol
      (isProtoRelativeUrl url)).1
    let isRelativeProtocol := (resolvedProtocol parts.protocol sh.protocol
      (isProtoRelativeUrl url)).2
    if opt.type == some "open" then
      match decodeURIComponent parts.pathname with
      | none => .error .uriError
      | some d0 =>
        let decoded := jsTrim d0
        if protocol == "http:" || protocol == "https:" then
          if !isRelativeProtocol then
            if !wikiSlashPathOk decoded then .error .wikiPrefixErr
            else openWikititle sh opt parts (decoded.drop 5) "wikititle"
          else openWikititle sh opt parts decoded "wikititle"
        else if protocol == "wikititle:" then
          openWikititle sh opt parts decoded protocol
        else .error .openProtoErr
    else
      if protocol == "http:" || protocol == "https:" then
        httpFetchCase cfg opt parts sh protocol url
      else if protocol == "wikiapi:" then
        wikiapiCase cfg opt parts sh protocol url
      else if protocol == "wikirest:" then
        wikirestCase cfg opt parts sh protocol url
      else if protocol == "wikiraw:" then
        wikirawCase cfg opt parts sh protocol url
      else if protocol == "tabular:" || protocol == "tabularinfo:" then
        tabularCase cfg opt parts sh protocol url
      else if protocol == "wikifile:" then
        wikifileCase cfg opt parts sh protocol url
      else if protocol == "wikirawupload:" then
        wikirawuploadCase cfg opt parts sh protocol url
      else if protocol == "wikidatasparql:" then
        wikidatasparqlCase cfg opt parts sh protocol url
      else if protocol == "geoshape:" || protocol == "geoline:" then
        geoshapeCase cfg opt parts sh protocol url
      else if protocol == "mapsnapshot:" then
        mapsnapshotCase cfg opt parts sh protocol url
      else .error (.unknownProtocol url)

/-! ## Response normalizer -/

/-- JSON values, the results of the JS builtin `JSON.parse`. -/
inductive JValue where
  | null
  | bool (b : Bool)
  | num (q : Rat)
  | str (s : String)
  | arr (xs : List JValue)
  | obj (fields : List (String × JValue))

/-- JS truthiness of a JSON value (objects and arrays are always truthy;
`JSON.parse` cannot produce `NaN` or `undefined`). -/
def truthy : JValue → Bool
  | .null => false
  | .bool b => b
  | .num q => !(q == 0)
  | .str s => s != ""
  | .arr _ => true
  | .obj _ => true

/-- Property read `v[k]` on a parsed JSON value that is not `null`;
`none` is `undefined` (also for primitive values, whose boxed property
reads yield `undefined` in JS).  A property read on JSON `null` throws a
`TypeError` in JS; that case is modelled at each read site on a
possibly-null value (`parseMWApiResponse`, the `wikidatasparql:` branch)
with the `jsNull` guard, so this function is only ever the non-null part
of the access. -/
def getField : JValue → String → Option JValue
  | .obj fs, k => (fs.find? (fun p => p.1 == k)).map (fun p => p.2)
  | _, _ => none

/-- Whether a parsed JSON value is `null` — the one value on which a JS
property read throws `TypeError` instead of yielding `undefined`
(`JSON.parse` can never produce `undefined`). -/
def jsNull : JValue → Bool
  | .null => true
  | _ => false

/-- JS truthiness of a possibly-undefined property. -/
def truthyField (v : JValue) (k : String) : Bool :=
  match getField v k with
  | some w => truthy w
  | none => false

/-- Errors of the response normalizer.  Each constructor corresponds to one
throw site; messages are given in the doc strings. -/
inductive ParseError where
  /-- A `SyntaxError` thrown by the JS builtin `JSON.parse` on a malformed
  payload. -/
  | jsonSyntaxError
  /-- Line 396: the text API error: followed by `JSON.stringify(data.error)`;
  the constructor carries the offending field's content. -/
  | apiError (content : JValue)
  /-- Line 418: Page content not available `opt.url`. -/
  | contentUnavailable (url : String)
  /-- Line 424: page is not a valid tabular data. -/
  | notTabularData
  /-- Line 454: SPARQL query result does not have results.bindings. -/
  | sparqlShapeError
  /-- A JS `TypeError` from reading a property of `null` or `undefined`
  (e.g. `data.error` on line 395 when the payload is the JSON text null,
  or `data.headers.length` when `headers` is missing), caught by
  `dataParser` like any other exception. -/
  | typeError

/-- Lines 393-402, `parseMWApiResponse`: after `JSON.parse` (the `jp`
oracle models that builtin: `jp raw` is its result, `none` a thrown
`SyntaxError`), the read `data.error` throws a `TypeError` on a payload
parsing to JSON `null`; otherwise fail on a truthy `error` field and log
a truthy `warnings` field.  The returned list is what was passed to the
logger collaborator. -/
def parseMWApiResponse (jp : String → Option JValue) (raw : String) :
    Except ParseError (JValue × List JValue) :=
  match jp raw with
  | none => .error .jsonSyntaxError
  | some data =>
    if jsNull data then .error .typeError
    else
      match getField data "error" with
      | some e =>
        if truthy e then .error (.apiError e)
        else
          match getField data "warnings" with
          | some w => if truthy w then .ok (data, [w]) else .ok (data, [])
          | none => .ok (data, [])
      | none =>
        match getField data "warnings" with
        | some w => if truthy w then .ok (data, [w]) else .ok (data, [])
        | none => .ok (data, [])

/-- Output of `parseDataOrThrow`: the payload string passed through
unchanged (tags with no case in the switch), or a decoded JSON value. -/
inductive DataOut where
  | asString (s : String)
  | asJson (v : JValue)

/-- The descent `data.query.pages[0].revisions[0].content` of the
`wikiraw:` case (line 416); any missing step is the caught exception. -/
def wikirawContent (v : JValue) : Option JValue :=
  match getField v "query" with
  | none => none
  | some q =>
    match getField q "pages" with
    | some (.arr (p0 :: _)) =>
      (match getField p0 "revisions" with
       | some (.arr (r0 :: _)) => getField r0 "content"
       | _ => none)
    | _ => none

/-- One output row of the `tabular:` case (lines 427-433): zip a row
against the `headers` array.  Header cells are taken as strings (the JS
property-key coercion on non-string headers is not modelled); a missing row
cell is JS `undefined`, modelled as `null`. -/
def tabularRow (headers : List JValue) (row : JValue) : List (String × JValue) :=
  (headers.enum.map (fun hi =>
    ((match hi.2 with | .str s => s | _ => ""),
     (match row with | .arr cells => cells.getD hi.1 .null | _ => .null))))

/-- Lines 407-469, `parseDataOrThrow`: tag-driven post-processing.  `pwv`
is the injected `parseWikidataValue` collaborator, `jp` the `JSON.parse`
oracle.  Returns the logged warnings together with the result or error.
(Element access inside the `tabular:`/`tabularinfo:` zips is simplified:
JS index reads on `null` rows or on primitive `headers`/`types`/`titles`
values — `TypeError`s or character indexing in JS — are modelled as the
`undefined`-like `null`/`typeError` shapes below; no claim depends on
those branches.) -/
def parseDataOrThrow (jp : String → Option JValue) (pwv : JValue → JValue)
    (data : String) (graphProtocol url : String) :
    List JValue × Except ParseError DataOut :=
  if graphProtocol == "wikiapi:" then
    match parseMWApiResponse jp data with
    | .error e => ([], .error e)
    | .ok (d, ws) => (ws, .ok (.asJson d))
  else if graphProtocol == "wikiraw:" then
    match parseMWApiResponse jp data with
    | .error e => ([], .error e)
    | .ok (d, ws) =>
      match wikirawContent d with
      | some c => (ws, .ok (.asJson c))
      | none => (ws, .error (.contentUnavailable url))
  else if graphProtocol == "tabular:" then
    match parseMWApiResponse jp data with
    | .error e => ([], .error e)
    | .ok (d, ws) =>
      match getField d "rows" with
      | some (.arr rows) =>
        (match getField d "headers" with
         | some (.arr hs) =>
           (ws, .ok (.asJson (.arr (rows.map (fun r => .obj (tabularRow hs r))))))
         | _ => (ws, .error .typeError))
      | _ => (ws, .error .notTabularData)
  else if graphProtocol == "tabularinfo:" then
    match parseMWApiResponse jp data with
    | .error e => ([], .error e)
    | .ok (d, ws) =>
      match getField d "headers" with
      | some (.arr hs) =>
        let pick : String → JValue := fun k => (getField d k).getD .null
        let zipAt : String → List (String × JValue) := fun k =>
          hs.enum.map (fun hi =>
            ((match hi.2 with | .str s => s | _ => ""),
             (match getField d k with
              | some (.arr xs) => xs.getD hi.1 .null
              | _ => .null)))
        (ws, .ok (.asJson (.obj
          [("license", pick "license"), ("info", pick "info"),
           ("types", .obj (zipAt "types")), ("titles", .obj (zipAt "titles")),
           ("count", .num (match getField d "rows" with
                           | some (.arr rows) => (rows.length : Rat)
                           | _ => 0))])))
      | _ => (ws, .error .typeError)
  else if graphProtocol == "wikidatasparql:" then
    match jp data with
    | none => ([], .error .jsonSyntaxError)
    | some d =>
      if jsNull d then ([], .error .typeError)
      else
        match getField d "results" with
        | some res =>
          (match getField res "bindings" with
           | some (.arr bs) =>
             ([], .ok (.asJson (.arr (bs.map (fun row =>
               match row with
               | .obj fs => .obj (fs.map (fun p => (p.1, pwv p.2)))
               | _ => .obj [])))))
           | _ => ([], .error .sparqlShapeError))
        | none => ([], .error .sparqlShapeError)
  else
    ([], .ok (.asString data))

/-- Lines 378-388, `dataParser`: on a fetch error, or an exception from
`parseDataOrThrow`, the callback receives the error and `undefined` data;
otherwise the processed data.  The third component is the list of warnings
handed to the logger. -/
def dataParser (jp : String → Option JValue) (pwv : JValue → JValue)
    (error : Option ParseError) (data : String) (graphProtocol url : String) :
    Option ParseError × Option DataOut × List JValue :=
  match error with
  | some e => (some e, none, [])
  | none =>
    match parseDataOrThrow jp pwv data graphProtocol url with
    | (ws, .ok d) => (none, some d, ws)
    | (ws, .error e) => (some e, none, ws)

/-! ## Statement helpers and shared concrete material -/

/-- The transport scheme `sanitizeUrl` resolves for a request before
branching (the value of `urlParts.protocol` after line 142). -/
def resolvedScheme (opt : Opt) (parts : UrlParts) (sh : SanHost) : String :=
  (resolvedProtocol parts.protocol sh.protocol (isProtoRelativeUrl (fixUrl opt.url))).1

/-- A typical configuration: wiki hosts on `https`, the geoshape
microservice, no host renames, untrusted. -/
def cfgDemo : Config :=
  { isTrusted := false,
    domains := [("https", ["wikimedia.org", "maps.wikimedia.org", "en.wikipedia.org"]),
                ("geoshape", ["maps.wikimedia.org"])],
    domainMap := [] }

/-- Decidable equality of translator outcomes, so closed runs of
`sanitizeUrl` can be checked by `decide`. -/
instance : DecidableEq (Except VegaError SanResult)
  | .ok a, .ok b =>
    if h : a = b then isTrue (by rw [h]) else isFalse (by simp [h])
  | .error a, .error b =>
    if h : a = b then isTrue (by rw [h]) else isFalse (by simp [h])
  | .ok _, .error _ => isFalse (by simp)
  | .error _, .ok _ => isFalse (by simp)

/-! ## Supporting lemmas -/

/-- A successful `sanitizeHost` means the (renamed) host it returns passed
`testHost` for the protocol it returns. -/
theorem sanitizeHost_testHost {cfg : Config} {h : String} {sh : SanHost}
    (hs : sanitizeHost cfg h = some sh) :
    testHost cfg sh.protocol sh.host = true := by
  unfold sanitizeHost at hs
  split at hs
  · cases hs
    assumption
  · split at hs
    · cases hs
      assumption
    · cases hs

/-- A successful `_validateExternalService` means the host it returns
passed `testHost` for the service scheme it checked. -/
theorem validateExternalService_testHost {cfg : Config} {host protocol : String}
    {rel : Bool} {shp : String} {orr : Option String} {url h p : String}
    (hv : validateExternalService cfg host protocol rel shp orr url = .ok (h, p)) :
    testHost cfg (orr.getD protocol) h = true := by
  unfold validateExternalService at hv
  split at hv
  · cases hv
  · split at hv
    · split at hv
      · cases hv
      · split at hv
        · cases hv
        · split at hv
          · cases hv
            assumption
          · cases hv
    · split at hv
      · cases hv
        assumption
      · cases hv

/-! ## Claims -/

/-- C9: the allowlist gate of `sanitizeUrl` runs before the trust check:
for any configuration (trusted or not), any action kind and any parsed
parts, a host that `sanitizeHost` rejects makes `sanitizeUrl` fail with the
unlisted-host error — a trusted graph is not passed through verbatim. -/
theorem c9_unlisted_host_precedes_trust (cfg : Config) (opt : Opt) (parts : UrlParts)
    (h : sanitizeHost cfg parts.host = none) :
    sanitizeUrl cfg opt parts = .error (.hostNotWhitelisted (fixUrl opt.url)) := by
  unfold sanitizeUrl
  rw [h]

/-- C9 witness: a trusted caller requesting `https://evil.com/x` still
fails with the unlisted-host error. -/
theorem c9_unlisted_host_precedes_trust_witness :
    sanitizeUrl { isTrusted := true, domains := [("https", ["wikimedia.org"])], domainMap := [] }
      { url := "https://evil.com/x", type := none, headers := [] }
      { host := "evil.com", protocol := some "https:", pathname := "/x",
        query := [], isRelativeHost := false } =
      .error (.hostNotWhitelisted "https://evil.com/x") := by
  have h := c9_unlisted_host_precedes_trust
    { isTrusted := true, domains := [("https", ["wikimedia.org"])], domainMap := [] }
    { url := "https://evil.com/x", type := none, headers := [] }
    { host := "evil.com", protocol := some "https:", pathname := "/x",
      query := [], isRelativeHost := false }
    (by decide)
  simpa using h

/-- Configuration refuting C3: `https` and `geoshape` configured with the
identical domain list. -/
def cfgSameLists : Config :=
  { isTrusted := false,
    domains := [("https", ["wikimedia.org"]), ("geoshape", ["wikimedia.org"])],
    domainMap := [] }

/-- C3 counterexample: with the same configured domain list, the compiled
matcher of `https:` accepts the subdomain `maps.wikimedia.org` while the
matcher of the custom scheme `geoshape:` rejects it — the matcher
construction is not identical, because `testHost` passes
`protocol === 'https:' || protocol === 'http:'` as the subdomain flag. -/
theorem c3_matchers_differ :
    getProtocolDomains cfgSameLists "https:" = some ["wikimedia.org"] ∧
    getProtocolDomains cfgSameLists "geoshape:" = some ["wikimedia.org"] ∧
    testHost cfgSameLists "https:" "maps.wikimedia.org" = true ∧
    testHost cfgSameLists "geoshape:" "maps.wikimedia.org" = false := by
  refine ⟨by decide, by decide, by decide, by decide⟩

/-- C3 amended: matching is subdomain-aware only for `http:`/`https:`; for
every other scheme identifier with configured domains, `testHost` accepts
exactly the hosts in the configured list. -/
theorem c3_custom_schemes_match_exactly (cfg : Config) (proto host : String)
    (ds : List String) (h1 : proto ≠ "https:") (h2 : proto ≠ "http:")
    (hd : getProtocolDomains cfg proto = some ds) :
    (testHost cfg proto host = true ↔ host ∈ ds) := by
  unfold testHost
  rw [hd]
  unfold validatorTest
  have e1 : (proto == "https:") = false := beq_eq_false_iff_ne.mpr h1
  have e2 : (proto == "http:") = false := beq_eq_false_iff_ne.mpr h2
  rw [e1, e2]
  simp only [Bool.or_self, Bool.false_and, Bool.or_false]
  constructor
  · intro hc
    obtain ⟨d, hdm, hbd⟩ := List.any_eq_true.mp hc
    obtain rfl : host = d := by simpa using hbd
    exact hdm
  · intro hm
    exact List.any_eq_true.mpr ⟨host, hm, by simp⟩

/-- C3 amended witness: for `geoshape:` with configured list
`[wikimedia.org]`, the exact host matches and the subdomain does not. -/
theorem c3_custom_schemes_match_exactly_witness :
    testHost cfgSameLists "geoshape:" "wikimedia.org" = true ∧
    ¬("maps.wikimedia.org" ∈ ["wikimedia.org"]) := by
  constructor
  · exact (c3_custom_schemes_match_exactly cfgSameLists "geoshape:" "wikimedia.org"
      ["wikimedia.org"] (by decide) (by decide) (by decide)).mpr (by decide)
  · decide

/-- C2: a normal-fetch request whose resolved transport scheme is `http:`
or `https:` (the host having passed the allowlist) fails with the
untrusted-protocol error when the caller is untrusted; for a trusted caller
the parts are kept verbatim — same pathname, query and scheme, no
rewriting, no CORS flag, no extra headers. -/
theorem c2_raw_http_trust_gate (cfg : Config) (opt : Opt) (parts : UrlParts)
    (sh : SanHost) (hsh : sanitizeHost cfg parts.host = some sh)
    (hopen : opt.type ≠ some "open")
    (hp : resolvedScheme opt parts sh = "http:" ∨ resolvedScheme opt parts sh = "https:") :
    (cfg.isTrusted = false → sanitizeUrl cfg opt parts = .error .untrustedHttpErr) ∧
    (cfg.isTrusted = true → sanitizeUrl cfg opt parts =
      .ok { host := sh.host, protocol := resolvedScheme opt parts sh,
            pathname := parts.pathname, query := parts.query,
            graphProtocol := resolvedScheme opt parts sh,
            addCorsOrigin := false, headers := opt.headers }) := by
  have hb : (opt.type == some "open") = false := beq_eq_false_iff_ne.mpr hopen
  have hcond : ((resolvedProtocol parts.protocol sh.protocol
      (isProtoRelativeUrl (fixUrl opt.url))).1 == "http:" ||
      (resolvedProtocol parts.protocol sh.protocol
      (isProtoRelativeUrl (fixUrl opt.url))).1 == "https:") = true := by
    unfold resolvedScheme at hp
    rcases hp with h | h <;> rw [h] <;> decide
  constructor <;> intro ht <;>
  · simp only [sanitizeUrl, httpFetchCase, hsh, hb, hcond, Bool.false_eq_true,
      if_false, if_true, Bool.true_eq_false, Bool.not_false, Bool.not_true, ht]
    try rfl

/-- C2 witness: with the host allowlisted, an untrusted `https:` fetch
fails with the untrusted-protocol error. -/
theorem c2_raw_http_trust_gate_witness :
    sanitizeUrl cfgDemo
      { url := "https://en.wikipedia.org/x", type := none, headers := [] }
      { host := "en.wikipedia.org", protocol := some "https:", pathname := "/x",
        query := [], isRelativeHost := false } = .error .untrustedHttpErr := by
  exact (c2_raw_http_trust_gate cfgDemo
    { url := "https://en.wikipedia.org/x", type := none, headers := [] }
    { host := "en.wikipedia.org", protocol := some "https:", pathname := "/x",
      query := [], isRelativeHost := false }
    ⟨"en.wikipedia.org", "https:"⟩ (by decide) (by decide) (Or.inr (by decide))).1 rfl

/-- A mapsnapshot request descriptor over the demo configuration:
protocol-relative addressing, so the geoshape service's first domain is
adopted as the host. -/
def msParts (q : List (String × String)) : UrlParts :=
  { host := "wikimedia.org", protocol := some "mapsnapshot:", pathname := "/",
    query := q, isRelativeHost := true }

/-- The `opt` descriptor of a mapsnapshot request. -/
def msOpt : Opt := { url := "mapsnapshot:///", type := none, headers := [] }

/-- The five required mapsnapshot parameters. -/
def msQuery (w h z la lo : String) : List (String × String) :=
  [("width", w), ("height", h), ("zoom", z), ("lat", la), ("lon", lo)]

/-- A string containing a pipe character never passes the title regex. -/
theorem validTitlePath_false_of_pipe {s : String} (h : '|' ∈ s.data) :
    validTitlePath s = false := by
  cases hs : s.data with
  | nil => rw [hs] at h; cases h
  | cons c rest =>
    rw [hs] at h
    have hgoal : validTitlePath s =
        (c == '/' && !rest.isEmpty && rest.all fun x => x != '|') := by
      unfold validTitlePath
      rw [hs]
    rw [hgoal]
    rcases List.mem_cons.mp h with h1 | h2
    · subst h1
      simp
    · cases hall : rest.all (fun x => x != '|') with
      | false => simp [hall]
      | true => exact absurd (List.all_eq_true.mp hall '|' h2) (by decide)

/-- The shared open-action tail succeeds on a valid title, building the
`/wiki/` pathname from the first-space-underscored, percent-encoded title
and forcing the sanitized host's protocol. -/
theorem openWikititle_ok {sh : SanHost} {opt : Opt} {parts : UrlParts}
    {decoded gp : String} (hq : parts.query = [])
    (ht : validTitlePath decoded = true) :
    openWikititle sh opt parts decoded gp =
      .ok { host := sh.host, protocol := sh.protocol,
            pathname := "/wiki/" ++
              encodeURIComponent (String.mk (replaceFirstSpace (decoded.drop 1).data)),
            query := parts.query, graphProtocol := gp,
            addCorsOrigin := false, headers := opt.headers } := by
  unfold openWikititle
  rw [hq]
  simp [ht]

/-- The shared open-action tail fails with the invalid-title error on any
title containing a pipe. -/
theorem openWikititle_pipe {sh : SanHost} {opt : Opt} {parts : UrlParts}
    {decoded gp : String} (hq : parts.query = [])
    (hp : '|' ∈ decoded.data) :
    openWikititle sh opt parts decoded gp = .error (.invalidTitle "wikititle") := by
  unfold openWikititle
  rw [hq]
  simp [validTitlePath_false_of_pipe hp]

/-- An open-action request with the `wikititle:` scheme reduces to the
shared open tail on the decoded, trimmed pathname. -/
theorem sanitizeUrl_open_wikititle_reduces {cfg : Config} {opt : Opt}
    {parts : UrlParts} {sh : SanHost} {d : String}
    (hsh : sanitizeHost cfg parts.host = some sh)
    (htype : opt.type = some "open")
    (hd : decodeURIComponent parts.pathname = some d)
    (hp : resolvedScheme opt parts sh = "wikititle:") :
    sanitizeUrl cfg opt parts = openWikititle sh opt parts (jsTrim d) "wikititle:" := by
  unfold resolvedScheme at hp
  simp only [sanitizeUrl, hsh, htype, hd, hp]
  rfl

/-- An open-action request with a protocol-relative `http:`/`https:` scheme
skips the `/wiki/` prefix check and reduces to the shared open tail on the
whole decoded, trimmed pathname, with the logical tag `wikititle`. -/
theorem sanitizeUrl_open_relative_http_reduces {cfg : Config} {opt : Opt}
    {parts : UrlParts} {sh : SanHost} {d : String}
    (hsh : sanitizeHost cfg parts.host = some sh)
    (htype : opt.type = some "open")
    (hd : decodeURIComponent parts.pathname = some d)
    (hp : resolvedScheme opt parts sh = "http:" ∨ resolvedScheme opt parts sh = "https:")
    (hrel : (resolvedProtocol parts.protocol sh.protocol
      (isProtoRelativeUrl (fixUrl opt.url))).2 = true) :
    sanitizeUrl cfg opt parts = openWikititle sh opt parts (jsTrim d) "wikititle" := by
  unfold resolvedScheme at hp
  rcases hp with hp | hp <;>
  · simp only [sanitizeUrl, hsh, htype, hd, hp, hrel]
    rfl

/-- C10: an empty title — a pathname decoding to the empty string or to a
bare slash — fails with the invalid-title error, even though it contains no
pipe, for `wikiraw:`, `tabular:`, `tabularinfo:` and open-action
`wikititle:` requests: the title regex requires at least one character
after the leading slash. -/
theorem c10_empty_title_fails (cfg : Config) (opt : Opt) (parts : UrlParts)
    (sh : SanHost) (d : String)
    (hsh : sanitizeHost cfg parts.host = some sh)
    (hd : decodeURIComponent parts.pathname = some d)
    (hde : d = "" ∨ d = "/") :
    (opt.type ≠ some "open" → resolvedScheme opt parts sh = "wikiraw:" →
       sanitizeUrl cfg opt parts = .error (.invalidTitle "wikiraw")) ∧
    (opt.type ≠ some "open" →
       (resolvedScheme opt parts sh = "tabular:" ∨
        resolvedScheme opt parts sh = "tabularinfo:") →
       sanitizeUrl cfg opt parts = .error (.invalidTitle (resolvedScheme opt parts sh))) ∧
    (opt.type = some "open" → resolvedScheme opt parts sh = "wikititle:" →
       parts.query = [] →
       sanitizeUrl cfg opt parts = .error (.invalidTitle "wikititle")) := by
  have hvt : validTitlePath d = false := by
    rcases hde with rfl | rfl <;> rfl
  refine ⟨?_, ?_, ?_⟩
  · intro h1 hp
    unfold resolvedScheme at hp
    have hb : (opt.type == some "open") = false := beq_eq_false_iff_ne.mpr h1
    simp only [sanitizeUrl, wikirawCase, hsh, hb, hd, hp, hvt]
    rfl
  · intro h1 hp
    have hb : (opt.type == some "open") = false := beq_eq_false_iff_ne.mpr h1
    rcases hp with hp | hp <;>
    · rw [hp]
      unfold resolvedScheme at hp
      simp only [sanitizeUrl, tabularCase, hsh, hb, hd, hp, hvt]
      rfl
  · intro h1 hp hq
    rw [sanitizeUrl_open_wikititle_reduces hsh h1 hd hp]
    have hjt : jsTrim d = d := by rcases hde with rfl | rfl <;> rfl
    rw [hjt]
    unfold openWikititle
    rw [hq]
    simp [hvt]

/-- C10 witness: `wikiraw:` with the bare-slash pathname (no pipe in it)
fails with the invalid-title error. -/
theorem c10_empty_title_fails_witness :
    sanitizeUrl cfgDemo { url := "wikiraw:///", type := none, headers := [] }
      { host := "en.wikipedia.org", protocol := some "wikiraw:", pathname := "/",
        query := [], isRelativeHost := true } =
      .error (.invalidTitle "wikiraw") := by
  exact (c10_empty_title_fails cfgDemo
    { url := "wikiraw:///", type := none, headers := [] }
    { host := "en.wikipedia.org", protocol := some "wikiraw:", pathname := "/",
      query := [], isRelativeHost := true }
    ⟨"en.wikipedia.org", "https:"⟩ "/" (by decide) (by decide) (Or.inr rfl)).1
    (by decide) (by decide)

/-- C4 counterexample: for the open action on an allowlisted host, the
relative title `wikititle:///` — whose decoded, trimmed pathname `/`
contains no pipe character — does not produce a `/wiki/` path: it fails
with the invalid-title error, refuting the claim that every pipe-free
relative title succeeds. -/
theorem c4_pipe_free_title_can_fail :
    ¬('|' ∈ ("/" : String).data) ∧
    sanitizeUrl cfgDemo { url := "wikititle:///", type := some "open", headers := [] }
      { host := "en.wikipedia.org", protocol := some "wikititle:", pathname := "/",
        query := [], isRelativeHost := true } =
      .error (.invalidTitle "wikititle") := by
  exact ⟨by decide, by decide⟩

/-- C4 amended: for the open action with an allowlisted host and no query
parameters, a relative (wikititle or protocol-relative http(s)) title whose
decoded, trimmed pathname is a leading slash followed by at least one
character none of which is a pipe produces the `/wiki/<encoded title>`
pathname with an empty query; every title containing a pipe fails with the
invalid-title error before any URL is produced. -/
theorem c4_open_title_roundtrip (cfg : Config) (opt : Opt) (parts : UrlParts)
    (sh : SanHost) (d : String)
    (hsh : sanitizeHost cfg parts.host = some sh)
    (htype : opt.type = some "open")
    (hq : parts.query = [])
    (hp : resolvedScheme opt parts sh = "wikititle:" ∨
          ((resolvedScheme opt parts sh = "http:" ∨
            resolvedScheme opt parts sh = "https:") ∧
           (resolvedProtocol parts.protocol sh.protocol
             (isProtoRelativeUrl (fixUrl opt.url))).2 = true))
    (hd : decodeURIComponent parts.pathname = some d) :
    (validTitlePath (jsTrim d) = true →
       ∃ r, sanitizeUrl cfg opt parts = .ok r ∧
         r.pathname = "/wiki/" ++ encodeURIComponent
           (String.mk (replaceFirstSpace ((jsTrim d).drop 1).data)) ∧
         r.query = []) ∧
    ('|' ∈ (jsTrim d).data →
       sanitizeUrl cfg opt parts = .error (.invalidTitle "wikititle")) := by
  have hred : sanitizeUrl cfg opt parts =
      openWikititle sh opt parts (jsTrim d) "wikititle:" ∨
      sanitizeUrl cfg opt parts = openWikititle sh opt parts (jsTrim d) "wikititle" := by
    rcases hp with hp | ⟨hp, hrel⟩
    · exact Or.inl (sanitizeUrl_open_wikititle_reduces hsh htype hd hp)
    · exact Or.inr (sanitizeUrl_open_relative_http_reduces hsh htype hd hp hrel)
  constructor
  · intro ht
    rcases hred with hred | hred <;>
    · rw [hred, openWikititle_ok hq ht]
      exact ⟨_, rfl, rfl, hq⟩
  · intro hpipe
    rcases hred with hred | hred <;>
    · rw [hred, openWikititle_pipe hq hpipe]

/-- C4 amended witness: `wikititle:///My_page` yields `/wiki/My_page` with
an empty query. -/
theorem c4_open_title_roundtrip_witness :
    ∃ r, sanitizeUrl cfgDemo
        { url := "wikititle:///My_page", type := some "open", headers := [] }
        { host := "en.wikipedia.org", protocol := some "wikititle:",
          pathname := "/My_page", query := [], isRelativeHost := true } = .ok r ∧
      r.pathname = "/wiki/My_page" ∧ r.query = [] := by
  obtain ⟨r, h1, h2, h3⟩ := (c4_open_title_roundtrip cfgDemo
    { url := "wikititle:///My_page", type := some "open", headers := [] }
    { host := "en.wikipedia.org", protocol := some "wikititle:",
      pathname := "/My_page", query := [], isRelativeHost := true }
    ⟨"en.wikipedia.org", "https:"⟩ "/My_page" (by decide) rfl rfl
    (Or.inl rfl) (by decide)).1 (by decide)
  refine ⟨r, h1, ?_, h3⟩
  rw [h2]
  decide

/-- C7 counterexample: the open-action title `a b c` (decoded from
`/a%20b%20c`) produces the pathname `/wiki/a_b%20c`: only the first space
becomes an underscore (JS `replace` with a string pattern replaces the
first occurrence), while the claimed every-space replacement would give
`/wiki/a_b_c` — a different string. -/
theorem c7_only_first_space_replaced :
    sanitizeUrl cfgDemo { url := "wikititle:///a%20b%20c", type := some "open", headers := [] }
      { host := "en.wikipedia.org", protocol := some "wikititle:",
        pathname := "/a%20b%20c", query := [], isRelativeHost := true } =
      .ok { host := "en.wikipedia.org", protocol := "https:",
            pathname := "/wiki/a_b%20c", query := [],
            graphProtocol := "wikititle:", addCorsOrigin := false, headers := [] } ∧
    ("/wiki/" ++ encodeURIComponent
      (String.mk (("a b c").data.map (fun c => if c == ' ' then '_' else c))) =
      "/wiki/a_b_c") ∧
    ("/wiki/a_b%20c" : String) ≠ "/wiki/a_b_c" := by
  exact ⟨by decide, by decide, by decide⟩

/-- A successful run of the shared open tail forces the sanitized host's
protocol and builds the `/wiki/` pathname from the first-space-underscored,
percent-encoded title it was given. -/
theorem openWikititle_shape {sh : SanHost} {opt : Opt} {parts : UrlParts}
    {decoded gp : String} {r : SanResult}
    (h : openWikititle sh opt parts decoded gp = .ok r) :
    r.protocol = sh.protocol ∧
    r.pathname = "/wiki/" ++ encodeURIComponent
      (String.mk (replaceFirstSpace (decoded.drop 1).data)) := by
  unfold openWikititle at h
  split at h
  · exact Except.noConfusion h
  · split at h
    · exact Except.noConfusion h
    · cases h
      exact ⟨rfl, rfl⟩

/-- C7 amended: every successful open-action translation forces the
transport scheme to the one `sanitizeHost` resolved for the allowlisted
host, and yields the pathname `/wiki/` followed by the percent-encoding of
the title — the decoded, trimmed pathname minus its leading slash, or,
for an explicit (non-protocol-relative) `http:`/`https:` link, the same
with the `/wiki` prefix stripped first — in which only the first space
(if any) has been turned into an underscore; later spaces stay and are
percent-encoded. -/
theorem c7_open_encoding (cfg : Config) (opt : Opt) (parts : UrlParts)
    (sh : SanHost) (d : String)
    (hsh : sanitizeHost cfg parts.host = some sh)
    (htype : opt.type = some "open")
    (hd : decodeURIComponent parts.pathname = some d) :
    ∀ r, sanitizeUrl cfg opt parts = .ok r →
      r.protocol = sh.protocol ∧
      (r.pathname = "/wiki/" ++ encodeURIComponent
          (String.mk (replaceFirstSpace ((jsTrim d).drop 1).data)) ∨
       (wikiSlashPathOk (jsTrim d) = true ∧
        r.pathname = "/wiki/" ++ encodeURIComponent
          (String.mk (replaceFirstSpace (((jsTrim d).drop 5).drop 1).data)))) := by
  intro r hr
  simp only [sanitizeUrl, hsh, htype, hd, beq_self_eq_true, eq_self_iff_true,
    if_true] at hr
  split at hr
  · split at hr
    · split at hr
      · exact Except.noConfusion hr
      · rename_i hwk
        have hwk2 : wikiSlashPathOk (jsTrim d) = true := by
          simpa using hwk
        exact ⟨(openWikititle_shape hr).1,
          Or.inr ⟨hwk2, (openWikititle_shape hr).2⟩⟩
    · exact ⟨(openWikititle_shape hr).1, Or.inl (openWikititle_shape hr).2⟩
  · split at hr
    · exact ⟨(openWikititle_shape hr).1, Or.inl (openWikititle_shape hr).2⟩
    · exact Except.noConfusion hr

/-- C7 amended witness: the successful translation of the title `a b_c`
(`wikititle:///a%20b_c`) has protocol `https:` and the first-space-only
encoded pathname. -/
theorem c7_open_encoding_witness :
    SanResult.protocol
      { host := "en.wikipedia.org", protocol := "https:",
        pathname := "/wiki/a_b_c", query := [], graphProtocol := "wikititle:",
        addCorsOrigin := false, headers := [] } =
      SanHost.protocol ⟨"en.wikipedia.org", "https:"⟩ ∧
    (SanResult.pathname
      { host := "en.wikipedia.org", protocol := "https:",
        pathname := "/wiki/a_b_c", query := [], graphProtocol := "wikititle:",
        addCorsOrigin := false, headers := [] } =
      "/wiki/" ++ encodeURIComponent
        (String.mk (replaceFirstSpace ((jsTrim "/a b_c").drop 1).data)) ∨
     (wikiSlashPathOk (jsTrim "/a b_c") = true ∧
      SanResult.pathname
        { host := "en.wikipedia.org", protocol := "https:",
          pathname := "/wiki/a_b_c", query := [], graphProtocol := "wikititle:",
          addCorsOrigin := false, headers := [] } =
        "/wiki/" ++ encodeURIComponent
          (String.mk (replaceFirstSpace (((jsTrim "/a b_c").drop 5).drop 1).data)))) := by
  exact c7_open_encoding cfgDemo
    { url := "wikititle:///a%20b_c", type := some "open", headers := [] }
    { host := "en.wikipedia.org", protocol := some "wikititle:",
      pathname := "/a%20b_c", query := [], isRelativeHost := true }
    ⟨"en.wikipedia.org", "https:"⟩ "/a b_c" (by decide) rfl (by decide)
    { host := "en.wikipedia.org", protocol := "https:",
      pathname := "/wiki/a_b_c", query := [], graphProtocol := "wikititle:",
      addCorsOrigin := false, headers := [] } (by decide)

/-- A missing mapsnapshot parameter fails naming it. -/
theorem validate_missing {q : List (String × String)} {name : String} {mn mx : Int}
    {isF : Bool} (h : getQ q name = none) :
    validate q name mn mx isF = .error (.paramNotSet name) := by
  unfold validate
  rw [h]

/-- A mapsnapshot parameter failing its numeric format fails naming it. -/
theorem validate_not_number {q : List (String × String)} {name : String}
    {mn mx : Int} {isF : Bool} {v : String} (h : getQ q name = some v)
    (hre : (if isF then floatRegexOk v else intRegexOk v) = false) :
    validate q name mn mx isF = .error (.paramNotNumber name) := by
  unfold validate
  rw [h]
  simp [hre]

/-- An in-range integer parameter passes validation. -/
theorem validate_ok_int {q : List (String × String)} {name : String}
    {mn mx : Int} {v : String} (h : getQ q name = some v)
    (hre : intRegexOk v = true) (h1 : mn ≤ parseJsInt v) (h2 : parseJsInt v ≤ mx) :
    validate q name mn mx false = .ok () := by
  unfold validate
  rw [h]
  have hc1 : ¬(((parseJsInt v : Int) : Rat) < ((mn : Int) : Rat)) := by
    rw [Int.cast_lt]
    exact not_lt.mpr h1
  have hc2 : ¬(((mx : Int) : Rat) < ((parseJsInt v : Int) : Rat)) := by
    rw [Int.cast_lt]
    exact not_lt.mpr h2
  simp [hre, hc1, hc2]

/-- An out-of-range integer parameter fails naming it. -/
theorem validate_out_of_range_int {q : List (String × String)} {name : String}
    {mn mx : Int} {v : String} (h : getQ q name = some v)
    (hre : intRegexOk v = true) (hout : parseJsInt v < mn ∨ mx < parseJsInt v) :
    validate q name mn mx false = .error (.paramNotValid name) := by
  unfold validate
  rw [h]
  have hc : (((parseJsInt v : Int) : Rat) < ((mn : Int) : Rat)) ∨
      (((mx : Int) : Rat) < ((parseJsInt v : Int) : Rat)) := by
    rcases hout with h | h
    · exact Or.inl (by rw [Int.cast_lt]; exact h)
    · exact Or.inr (by rw [Int.cast_lt]; exact h)
  rcases hc with hc | hc <;> simp [hre, hc]

/-- An in-range decimal parameter passes validation. -/
theorem validate_ok_float {q : List (String × String)} {name : String}
    {mn mx : Int} {v : String} (h : getQ q name = some v)
    (hre : floatRegexOk v = true)
    (h1 : ((mn : Int) : Rat) ≤ parseJsFloat v) (h2 : parseJsFloat v ≤ ((mx : Int) : Rat)) :
    validate q name mn mx true = .ok () := by
  unfold validate
  rw [h]
  simp [hre, not_lt.mpr h1, not_lt.mpr h2]

/-- An out-of-range decimal parameter fails naming it. -/
theorem validate_out_of_range_float {q : List (String × String)} {name : String}
    {mn mx : Int} {v : String} (h : getQ q name = some v)
    (hre : floatRegexOk v = true)
    (hout : parseJsFloat v < ((mn : Int) : Rat) ∨ ((mx : Int) : Rat) < parseJsFloat v) :
    validate q name mn mx true = .error (.paramNotValid name) := by
  unfold validate
  rw [h]
  rcases hout with hc | hc <;> simp [hre, hc]

/-- When a request resolves to `mapsnapshot:`, the external service
resolves, all five parameters validate and no style is given, `sanitizeUrl`
builds the `/img/` snapshot pathname from the raw parameter strings and
clears the query. -/
theorem msnap_ok (cfg : Config) (opt : Opt) (parts : UrlParts) (sh : SanHost)
    (hh pp : String)
    (hsh : sanitizeHost cfg parts.host = some sh)
    (htype : opt.type ≠ some "open")
    (hproto : resolvedScheme opt parts sh = "mapsnapshot:")
    (hves : validateExternalService cfg sh.host "mapsnapshot:" parts.isRelativeHost
      sh.protocol (some "geoshape:") (fixUrl opt.url) = .ok (hh, pp))
    (h1 : validate parts.query "width" 1 4096 false = .ok ())
    (h2 : validate parts.query "height" 1 4096 false = .ok ())
    (h3 : validate parts.query "zoom" 0 22 false = .ok ())
    (h4 : validate parts.query "lat" (-90) 90 true = .ok ())
    (h5 : validate parts.query "lon" (-180) 180 true = .ok ())
    (hstyle : truthyStr (getQ parts.query "style") = false) :
    sanitizeUrl cfg opt parts =
      .ok { host := hh, protocol := pp,
            pathname := "/img/osm-intl," ++ (getQ parts.query "zoom").getD "" ++
              "," ++ (getQ parts.query "lat").getD "" ++
              "," ++ (getQ parts.query "lon").getD "" ++
              "," ++ (getQ parts.query "width").getD "" ++
              "x" ++ (getQ parts.query "height").getD "" ++ "@2x.png",
            query := [], graphProtocol := "mapsnapshot:", addCorsOrigin := false,
            headers := opt.headers } := by
  have hb : (opt.type == some "open") = false := beq_eq_false_iff_ne.mpr htype
  unfold resolvedScheme at hproto
  simp only [sanitizeUrl, mapsnapshotCase, hsh, hb, hproto, hves, h1, h2, h3, h4,
    h5, hstyle]
  try rfl

/-- As `msnap_ok`, with a nonempty style passing the (single-character)
style check: it becomes the first `/img/` path component. -/
theorem msnap_ok_style (cfg : Config) (opt : Opt) (parts : UrlParts) (sh : SanHost)
    (hh pp : String)
    (hsh : sanitizeHost cfg parts.host = some sh)
    (htype : opt.type ≠ some "open")
    (hproto : resolvedScheme opt parts sh = "mapsnapshot:")
    (hves : validateExternalService cfg sh.host "mapsnapshot:" parts.isRelativeHost
      sh.protocol (some "geoshape:") (fixUrl opt.url) = .ok (hh, pp))
    (h1 : validate parts.query "width" 1 4096 false = .ok ())
    (h2 : validate parts.query "height" 1 4096 false = .ok ())
    (h3 : validate parts.query "zoom" 0 22 false = .ok ())
    (h4 : validate parts.query "lat" (-90) 90 true = .ok ())
    (h5 : validate parts.query "lon" (-180) 180 true = .ok ())
    {st : String} (hgs : getQ parts.query "style" = some st) (hne : st ≠ "")
    (hok : styleRegexOk st = true) :
    sanitizeUrl cfg opt parts =
      .ok { host := hh, protocol := pp,
            pathname := "/img/" ++ st ++ "," ++ (getQ parts.query "zoom").getD "" ++
              "," ++ (getQ parts.query "lat").getD "" ++
              "," ++ (getQ parts.query "lon").getD "" ++
              "," ++ (getQ parts.query "width").getD "" ++
              "x" ++ (getQ parts.query "height").getD "" ++ "@2x.png",
            query := [], graphProtocol := "mapsnapshot:", addCorsOrigin := false,
            headers := opt.headers } := by
  have hb : (opt.type == some "open") = false := beq_eq_false_iff_ne.mpr htype
  have hst : truthyStr (some st) = true := by simp [truthyStr, hne]
  unfold resolvedScheme at hproto
  simp only [sanitizeUrl, mapsnapshotCase, hsh, hb, hproto, hves, h1, h2, h3, h4,
    h5, hgs, hst, hok, Option.getD_some]
  try rfl

/-- As `msnap_ok`, with a nonempty style failing the style regex: the
translation aborts with the invalid-style error. -/
theorem msnap_badstyle (cfg : Config) (opt : Opt) (parts : UrlParts) (sh : SanHost)
    (hh pp : String)
    (hsh : sanitizeHost cfg parts.host = some sh)
    (htype : opt.type ≠ some "open")
    (hproto : resolvedScheme opt parts sh = "mapsnapshot:")
    (hves : validateExternalService cfg sh.host "mapsnapshot:" parts.isRelativeHost
      sh.protocol (some "geoshape:") (fixUrl opt.url) = .ok (hh, pp))
    (h1 : validate parts.query "width" 1 4096 false = .ok ())
    (h2 : validate parts.query "height" 1 4096 false = .ok ())
    (h3 : validate parts.query "zoom" 0 22 false = .ok ())
    (h4 : validate parts.query "lat" (-90) 90 true = .ok ())
    (h5 : validate parts.query "lon" (-180) 180 true = .ok ())
    {st : String} (hgs : getQ parts.query "style" = some st) (hne : st ≠ "")
    (hbad : styleRegexOk st = false) :
    sanitizeUrl cfg opt parts = .error .invalidStyle := by
  have hb : (opt.type == some "open") = false := beq_eq_false_iff_ne.mpr htype
  have hst : truthyStr (some st) = true := by simp [truthyStr, hne]
  unfold resolvedScheme at hproto
  simp only [sanitizeUrl, mapsnapshotCase, hsh, hb, hproto, hves, h1, h2, h3, h4,
    h5, hgs, hst, hbad, Option.getD_some]
  try rfl

/-- A `width` validation error aborts the mapsnapshot translation with it. -/
theorem msnap_err_width (cfg : Config) (opt : Opt) (parts : UrlParts) (sh : SanHost)
    (hh pp : String)
    (hsh : sanitizeHost cfg parts.host = some sh)
    (htype : opt.type ≠ some "open")
    (hproto : resolvedScheme opt parts sh = "mapsnapshot:")
    (hves : validateExternalService cfg sh.host "mapsnapshot:" parts.isRelativeHost
      sh.protocol (some "geoshape:") (fixUrl opt.url) = .ok (hh, pp))
    {e : VegaError} (h1 : validate parts.query "width" 1 4096 false = .error e) :
    sanitizeUrl cfg opt parts = .error e := by
  have hb : (opt.type == some "open") = false := beq_eq_false_iff_ne.mpr htype
  unfold resolvedScheme at hproto
  simp only [sanitizeUrl, mapsnapshotCase, hsh, hb, hproto, hves, h1]
  try rfl

/-- With `width` valid, a `height` validation error aborts the
translation with it. -/
theorem msnap_err_height (cfg : Config) (opt : Opt) (parts : UrlParts) (sh : SanHost)
    (hh pp : String)
    (hsh : sanitizeHost cfg parts.host = some sh)
    (htype : opt.type ≠ some "open")
    (hproto : resolvedScheme opt parts sh = "mapsnapshot:")
    (hves : validateExternalService cfg sh.host "mapsnapshot:" parts.isRelativeHost
      sh.protocol (some "geoshape:") (fixUrl opt.url) = .ok (hh, pp))
    (h1 : validate parts.query "width" 1 4096 false = .ok ())
    {e : VegaError} (h2 : validate parts.query "height" 1 4096 false = .error e) :
    sanitizeUrl cfg opt parts = .error e := by
  have hb : (opt.type == some "open") = false := beq_eq_false_iff_ne.mpr htype
  unfold resolvedScheme at hproto
  simp only [sanitizeUrl, mapsnapshotCase, hsh, hb, hproto, hves, h1, h2]
  try rfl

/-- With `width` and `height` valid, a `zoom` validation error aborts the
translation with it. -/
theorem msnap_err_zoom (cfg : Config) (opt : Opt) (parts : UrlParts) (sh : SanHost)
    (hh pp : String)
    (hsh : sanitizeHost cfg parts.host = some sh)
    (htype : opt.type ≠ some "open")
    (hproto : resolvedScheme opt parts sh = "mapsnapshot:")
    (hves : validateExternalService cfg sh.host "mapsnapshot:" parts.isRelativeHost
      sh.protocol (some "geoshape:") (fixUrl opt.url) = .ok (hh, pp))
    (h1 : validate parts.query "width" 1 4096 false = .ok ())
    (h2 : validate parts.query "height" 1 4096 false = .ok ())
    {e : VegaError} (h3 : validate parts.query "zoom" 0 22 false = .error e) :
    sanitizeUrl cfg opt parts = .error e := by
  have hb : (opt.type == some "open") = false := beq_eq_false_iff_ne.mpr htype
  unfold resolvedScheme at hproto
  simp only [sanitizeUrl, mapsnapshotCase, hsh, hb, hproto, hves, h1, h2, h3]
  try rfl

/-- With `width`, `height` and `zoom` valid, a `lat` validation error
aborts the translation with it. -/
theorem msnap_err_lat (cfg : Config) (opt : Opt) (parts : UrlParts) (sh : SanHost)
    (hh pp : String)
    (hsh : sanitizeHost cfg parts.host = some sh)
    (htype : opt.type ≠ some "open")
    (hproto : resolvedScheme opt parts sh = "mapsnapshot:")
    (hves : validateExternalService cfg sh.host "mapsnapshot:" parts.isRelativeHost
      sh.protocol (some "geoshape:") (fixUrl opt.url) = .ok (hh, pp))
    (h1 : validate parts.query "width" 1 4096 false = .ok ())
    (h2 : validate parts.query "height" 1 4096 false = .ok ())
    (h3 : validate parts.query "zoom" 0 22 false = .ok ())
    {e : VegaError} (h4 : validate parts.query "lat" (-90) 90 true = .error e) :
    sanitizeUrl cfg opt parts = .error e := by
  have hb : (opt.type == some "open") = false := beq_eq_false_iff_ne.mpr htype
  unfold resolvedScheme at hproto
  simp only [sanitizeUrl, mapsnapshotCase, hsh, hb, hproto, hves, h1, h2, h3, h4]
  try rfl

/-- With the first four parameters valid, a `lon` validation error aborts
the translation with it. -/
theorem msnap_err_lon (cfg : Config) (opt : Opt) (parts : UrlParts) (sh : SanHost)
    (hh pp : String)
    (hsh : sanitizeHost cfg parts.host = some sh)
    (htype : opt.type ≠ some "open")
    (hproto : resolvedScheme opt parts sh = "mapsnapshot:")
    (hves : validateExternalService cfg sh.host "mapsnapshot:" parts.isRelativeHost
      sh.protocol (some "geoshape:") (fixUrl opt.url) = .ok (hh, pp))
    (h1 : validate parts.query "width" 1 4096 false = .ok ())
    (h2 : validate parts.query "height" 1 4096 false = .ok ())
    (h3 : validate parts.query "zoom" 0 22 false = .ok ())
    (h4 : validate parts.query "lat" (-90) 90 true = .ok ())
    {e : VegaError} (h5 : validate parts.query "lon" (-180) 180 true = .error e) :
    sanitizeUrl cfg opt parts = .error e := by
  have hb : (opt.type == some "open") = false := beq_eq_false_iff_ne.mpr htype
  unfold resolvedScheme at hproto
  simp only [sanitizeUrl, mapsnapshotCase, hsh, hb, hproto, hves, h1, h2, h3, h4, h5]
  try rfl

/-- C5: for every mapsnapshot request whose host resolved and whose
external geoshape service validated: when the five parameters are present,
in the required numeric format and in range, translation succeeds with the
pathname `/img/<style-or-osm-intl>,<zoom>,<lat>,<lon>,<width>x<height>@2x.png`
built from the raw parameter strings and an empty query; and for each of
the five parameters in check order (width, height, zoom, lat, lon, the
earlier ones valid), a missing, non-numeric or out-of-range value fails
with an error naming that parameter.  The two concrete instances of the
spec are included: width=5000 fails naming width, and
width=500,height=100,zoom=5,lat=10,lon=10 yields
`/img/osm-intl,5,10,10,500x100@2x.png`.  (Numeric parsing is modelled with
exact rationals rather than IEEE doubles.) -/
theorem c5_mapsnapshot_params (cfg : Config) (opt : Opt) (parts : UrlParts)
    (sh : SanHost) (hh pp : String) (w h z la lo st : String)
    (hsh : sanitizeHost cfg parts.host = some sh)
    (htype : opt.type ≠ some "open")
    (hproto : resolvedScheme opt parts sh = "mapsnapshot:")
    (hves : validateExternalService cfg sh.host "mapsnapshot:" parts.isRelativeHost
      sh.protocol (some "geoshape:") (fixUrl opt.url) = .ok (hh, pp)) :
    ((getQ parts.query "width" = some w ∧ intRegexOk w = true ∧
        1 ≤ parseJsInt w ∧ parseJsInt w ≤ 4096) →
     (getQ parts.query "height" = some h ∧ intRegexOk h = true ∧
        1 ≤ parseJsInt h ∧ parseJsInt h ≤ 4096) →
     (getQ parts.query "zoom" = some z ∧ intRegexOk z = true ∧
        0 ≤ parseJsInt z ∧ parseJsInt z ≤ 22) →
     (getQ parts.query "lat" = some la ∧ floatRegexOk la = true ∧
        ((-90 : Int) : Rat) ≤ parseJsFloat la ∧ parseJsFloat la ≤ ((90 : Int) : Rat)) →
     (getQ parts.query "lon" = some lo ∧ floatRegexOk lo = true ∧
        ((-180 : Int) : Rat) ≤ parseJsFloat lo ∧ parseJsFloat lo ≤ ((180 : Int) : Rat)) →
     (truthyStr (getQ parts.query "style") = false →
        sanitizeUrl cfg opt parts =
          .ok { host := hh, protocol := pp,
                pathname := "/img/osm-intl," ++ z ++ "," ++ la ++ "," ++ lo ++
                  "," ++ w ++ "x" ++ h ++ "@2x.png",
                query := [], graphProtocol := "mapsnapshot:",
                addCorsOrigin := false, headers := opt.headers }) ∧
     (getQ parts.query "style" = some st → st ≠ "" → styleRegexOk st = true →
        sanitizeUrl cfg opt parts =
          .ok { host := hh, protocol := pp,
                pathname := "/img/" ++ st ++ "," ++ z ++ "," ++ la ++ "," ++ lo ++
                  "," ++ w ++ "x" ++ h ++ "@2x.png",
                query := [], graphProtocol := "mapsnapshot:",
                addCorsOrigin := false, headers := opt.headers })) ∧
    (getQ parts.query "width" = none →
       sanitizeUrl cfg opt parts = .error (.paramNotSet "width")) ∧
    (getQ parts.query "width" = some w → intRegexOk w = false →
       sanitizeUrl cfg opt parts = .error (.paramNotNumber "width")) ∧
    (getQ parts.query "width" = some w → intRegexOk w = true →
       (parseJsInt w < 1 ∨ 4096 < parseJsInt w) →
       sanitizeUrl cfg opt parts = .error (.paramNotValid "width")) ∧
    ((getQ parts.query "width" = some w ∧ intRegexOk w = true ∧
        1 ≤ parseJsInt w ∧ parseJsInt w ≤ 4096) →
     (getQ parts.query "height" = none →
        sanitizeUrl cfg opt parts = .error (.paramNotSet "height")) ∧
     (getQ parts.query "height" = some h → intRegexOk h = false →
        sanitizeUrl cfg opt parts = .error (.paramNotNumber "height")) ∧
     (getQ parts.query "height" = some h → intRegexOk h = true →
        (parseJsInt h < 1 ∨ 4096 < parseJsInt h) →
        sanitizeUrl cfg opt parts = .error (.paramNotValid "height"))) ∧
    ((getQ parts.query "width" = some w ∧ intRegexOk w = true ∧
        1 ≤ parseJsInt w ∧ parseJsInt w ≤ 4096) →
     (getQ parts.query "height" = some h ∧ intRegexOk h = true ∧
        1 ≤ parseJsInt h ∧ parseJsInt h ≤ 4096) →
     (getQ parts.query "zoom" = none →
        sanitizeUrl cfg opt parts = .error (.paramNotSet "zoom")) ∧
     (getQ parts.query "zoom" = some z → intRegexOk z = false →
        sanitizeUrl cfg opt parts = .error (.paramNotNumber "zoom")) ∧
     (getQ parts.query "zoom" = some z → intRegexOk z = true →
        (parseJsInt z < 0 ∨ 22 < parseJsInt z) →
        sanitizeUrl cfg opt parts = .error (.paramNotValid "zoom"))) ∧
    ((getQ parts.query "width" = some w ∧ intRegexOk w = true ∧
        1 ≤ parseJsInt w ∧ parseJsInt w ≤ 4096) →
     (getQ parts.query "height" = some h ∧ intRegexOk h = true ∧
        1 ≤ parseJsInt h ∧ parseJsInt h ≤ 4096) →
     (getQ parts.query "zoom" = some z ∧ intRegexOk z = true ∧
        0 ≤ parseJsInt z ∧ parseJsInt z ≤ 22) →
     (getQ parts.query "lat" = none →
        sanitizeUrl cfg opt parts = .error (.paramNotSet "lat")) ∧
     (getQ parts.query "lat" = some la → floatRegexOk la = false →
        sanitizeUrl cfg opt parts = .error (.paramNotNumber "lat")) ∧
     (getQ parts.query "lat" = some la → floatRegexOk la = true →
        (parseJsFloat la < ((-90 : Int) : Rat) ∨ ((90 : Int) : Rat) < parseJsFloat la) →
        sanitizeUrl cfg opt parts = .error (.paramNotValid "lat"))) ∧
    ((getQ parts.query "width" = some w ∧ intRegexOk w = true ∧
        1 ≤ parseJsInt w ∧ parseJsInt w ≤ 4096) →
     (getQ parts.query "height" = some h ∧ intRegexOk h = true ∧
        1 ≤ parseJsInt h ∧ parseJsInt h ≤ 4096) →
     (getQ parts.query "zoom" = some z ∧ intRegexOk z = true ∧
        0 ≤ parseJsInt z ∧ parseJsInt z ≤ 22) →
     (getQ parts.query "lat" = some la ∧ floatRegexOk la = true ∧
        ((-90 : Int) : Rat) ≤ parseJsFloat la ∧ parseJsFloat la ≤ ((90 : Int) : Rat)) →
     (getQ parts.query "lon" = none →
        sanitizeUrl cfg opt parts = .error (.paramNotSet "lon")) ∧
     (getQ parts.query "lon" = some lo → floatRegexOk lo = false →
        sanitizeUrl cfg opt parts = .error (.paramNotNumber "lon")) ∧
     (getQ parts.query "lon" = some lo → floatRegexOk lo = true →
        (parseJsFloat lo < ((-180 : Int) : Rat) ∨ ((180 : Int) : Rat) < parseJsFloat lo) →
        sanitizeUrl cfg opt parts = .error (.paramNotValid "lon"))) ∧
    (sanitizeUrl cfgDemo msOpt (msParts (msQuery "5000" "100" "5" "10" "10")) =
       .error (.paramNotValid "width")) ∧
    (sanitizeUrl cfgDemo msOpt (msParts (msQuery "500" "100" "5" "10" "10")) =
       .ok { host := "maps.wikimedia.org", protocol := "https:",
             pathname := "/img/osm-intl,5,10,10,500x100@2x.png", query := [],
             graphProtocol := "mapsnapshot:", addCorsOrigin := false,
             headers := [] }) := by
  refine ⟨?_, ?_, ?_, ?_, ?_, ?_, ?_, ?_, by decide, by decide⟩
  · rintro ⟨hgw, hw1, hw2, hw3⟩ ⟨hgh, hxh1, hxh2, hxh3⟩ ⟨hgz, hz1, hz2, hz3⟩
      ⟨hgla, hla1, hla2, hla3⟩ ⟨hglo, hlo1, hlo2, hlo3⟩
    constructor
    · intro hsty
      rw [msnap_ok cfg opt parts sh hh pp hsh htype hproto hves
        (validate_ok_int hgw hw1 hw2 hw3) (validate_ok_int hgh hxh1 hxh2 hxh3)
        (validate_ok_int hgz hz1 hz2 hz3) (validate_ok_float hgla hla1 hla2 hla3)
        (validate_ok_float hglo hlo1 hlo2 hlo3) hsty, hgz, hgla, hglo, hgw, hgh]
      rfl
    · intro hgs hne hok
      rw [msnap_ok_style cfg opt parts sh hh pp hsh htype hproto hves
        (validate_ok_int hgw hw1 hw2 hw3) (validate_ok_int hgh hxh1 hxh2 hxh3)
        (validate_ok_int hgz hz1 hz2 hz3) (validate_ok_float hgla hla1 hla2 hla3)
        (validate_ok_float hglo hlo1 hlo2 hlo3) hgs hne hok, hgz, hgla, hglo,
        hgw, hgh]
      rfl
  · intro hgw
    exact msnap_err_width cfg opt parts sh hh pp hsh htype hproto hves
      (validate_missing hgw)
  · intro hgw hwre
    exact msnap_err_width cfg opt parts sh hh pp hsh htype hproto hves
      (validate_not_number hgw (by simp [hwre]))
  · intro hgw hwre hout
    exact msnap_err_width cfg opt parts sh hh pp hsh htype hproto hves
      (validate_out_of_range_int hgw hwre hout)
  · rintro ⟨hgw, hw1, hw2, hw3⟩
    refine ⟨?_, ?_, ?_⟩
    · intro hgh
      exact msnap_err_height cfg opt parts sh hh pp hsh htype hproto hves
        (validate_ok_int hgw hw1 hw2 hw3) (validate_missing hgh)
    · intro hgh hre
      exact msnap_err_height cfg opt parts sh hh pp hsh htype hproto hves
        (validate_ok_int hgw hw1 hw2 hw3) (validate_not_number hgh (by simp [hre]))
    · intro hgh hre hout
      exact msnap_err_height cfg opt parts sh hh pp hsh htype hproto hves
        (validate_ok_int hgw hw1 hw2 hw3) (validate_out_of_range_int hgh hre hout)
  · rintro ⟨hgw, hw1, hw2, hw3⟩ ⟨hgh, hxh1, hxh2, hxh3⟩
    refine ⟨?_, ?_, ?_⟩
    · intro hgz
      exact msnap_err_zoom cfg opt parts sh hh pp hsh htype hproto hves
        (validate_ok_int hgw hw1 hw2 hw3) (validate_ok_int hgh hxh1 hxh2 hxh3)
        (validate_missing hgz)
    · intro hgz hre
      exact msnap_err_zoom cfg opt parts sh hh pp hsh htype hproto hves
        (validate_ok_int hgw hw1 hw2 hw3) (validate_ok_int hgh hxh1 hxh2 hxh3)
        (validate_not_number hgz (by simp [hre]))
    · intro hgz hre hout
      exact msnap_err_zoom cfg opt parts sh hh pp hsh htype hproto hves
        (validate_ok_int hgw hw1 hw2 hw3) (validate_ok_int hgh hxh1 hxh2 hxh3)
        (validate_out_of_range_int hgz hre hout)
  · rintro ⟨hgw, hw1, hw2, hw3⟩ ⟨hgh, hxh1, hxh2, hxh3⟩ ⟨hgz, hz1, hz2, hz3⟩
    refine ⟨?_, ?_, ?_⟩
    · intro hgla
      exact msnap_err_lat cfg opt parts sh hh pp hsh htype hproto hves
        (validate_ok_int hgw hw1 hw2 hw3) (validate_ok_int hgh hxh1 hxh2 hxh3)
        (validate_ok_int hgz hz1 hz2 hz3) (validate_missing hgla)
    · intro hgla hre
      exact msnap_err_lat cfg opt parts sh hh pp hsh htype hproto hves
        (validate_ok_int hgw hw1 hw2 hw3) (validate_ok_int hgh hxh1 hxh2 hxh3)
        (validate_ok_int hgz hz1 hz2 hz3) (validate_not_number hgla (by simp [hre]))
    · intro hgla hre hout
      exact msnap_err_lat cfg opt parts sh hh pp hsh htype hproto hves
        (validate_ok_int hgw hw1 hw2 hw3) (validate_ok_int hgh hxh1 hxh2 hxh3)
        (validate_ok_int hgz hz1 hz2 hz3) (validate_out_of_range_float hgla hre hout)
  · rintro ⟨hgw, hw1, hw2, hw3⟩ ⟨hgh, hxh1, hxh2, hxh3⟩ ⟨hgz, hz1, hz2, hz3⟩
      ⟨hgla, hla1, hla2, hla3⟩
    refine ⟨?_, ?_, ?_⟩
    · intro hglo
      exact msnap_err_lon cfg opt parts sh hh pp hsh htype hproto hves
        (validate_ok_int hgw hw1 hw2 hw3) (validate_ok_int hgh hxh1 hxh2 hxh3)
        (validate_ok_int hgz hz1 hz2 hz3) (validate_ok_float hgla hla1 hla2 hla3)
        (validate_missing hglo)
    · intro hglo hre
      exact msnap_err_lon cfg opt parts sh hh pp hsh htype hproto hves
        (validate_ok_int hgw hw1 hw2 hw3) (validate_ok_int hgh hxh1 hxh2 hxh3)
        (validate_ok_int hgz hz1 hz2 hz3) (validate_ok_float hgla hla1 hla2 hla3)
        (validate_not_number hglo (by simp [hre]))
    · intro hglo hre hout
      exact msnap_err_lon cfg opt parts sh hh pp hsh htype hproto hves
        (validate_ok_int hgw hw1 hw2 hw3) (validate_ok_int hgh hxh1 hxh2 hxh3)
        (validate_ok_int hgz hz1 hz2 hz3) (validate_ok_float hgla hla1 hla2 hla3)
        (validate_out_of_range_float hglo hre hout)

/-- C5 witness: the all-valid clause at width 500, height 100, zoom 5,
lat 10, lon 10 over the demo configuration, with no style. -/
theorem c5_mapsnapshot_params_witness :
    sanitizeUrl cfgDemo msOpt (msParts (msQuery "500" "100" "5" "10" "10")) =
      .ok { host := "maps.wikimedia.org", protocol := "https:",
            pathname := "/img/osm-intl," ++ "5" ++ "," ++ "10" ++ "," ++ "10" ++
              "," ++ "500" ++ "x" ++ "100" ++ "@2x.png",
            query := [], graphProtocol := "mapsnapshot:", addCorsOrigin := false,
            headers := [] } :=
  (((c5_mapsnapshot_params cfgDemo msOpt (msParts (msQuery "500" "100" "5" "10" "10"))
    ⟨"wikimedia.org", "https:"⟩ "maps.wikimedia.org" "https:"
    "500" "100" "5" "10" "10" "" (by decide) (by decide) rfl rfl).1
    ⟨rfl, by decide, by decide, by decide⟩ ⟨rfl, by decide, by decide, by decide⟩
    ⟨rfl, by decide, by decide, by decide⟩ ⟨rfl, by decide, by decide, by decide⟩
    ⟨rfl, by decide, by decide, by decide⟩).1 rfl)

/-- The style regex of line 327 rejects every string of two or more
characters: its pattern has no quantifier. -/
theorem styleRegexOk_false_of_len {s : String} (hlen : 2 ≤ s.data.length) :
    styleRegexOk s = false := by
  cases hs : s.data with
  | nil =>
    unfold styleRegexOk
    rw [hs]
  | cons c rest =>
    cases rest with
    | nil =>
      rw [hs] at hlen
      simp at hlen
    | cons c2 r2 =>
      unfold styleRegexOk
      rw [hs]

/-- C6 (code bug): the style value `osm-intl` — the very default the code
itself substitutes when `style` is absent — consists only of characters
from the class `[-_0-9a-z]`, yet passing it explicitly fails with the
invalid-style error, because the regex on line 327 is `/^[-_0-9a-z]$/`
with no quantifier: it accepts exactly one character.  In general every
style of two or more characters, all from the class, is rejected, while a
one-character style passes and is used as the first `/img/` path
component. -/
theorem c6_style_regex_rejects_multichar :
    ("osm-intl".data.all styleCharOk = true) ∧
    sanitizeUrl cfgDemo msOpt (msParts (msQuery "500" "100" "5" "10" "10" ++
      [("style", "osm-intl")])) = .error .invalidStyle ∧
    sanitizeUrl cfgDemo msOpt (msParts (msQuery "500" "100" "5" "10" "10" ++
      [("style", "a")])) =
      .ok { host := "maps.wikimedia.org", protocol := "https:",
            pathname := "/img/a,5,10,10,500x100@2x.png", query := [],
            graphProtocol := "mapsnapshot:", addCorsOrigin := false,
            headers := [] } ∧
    (∀ stl : String, 2 ≤ stl.data.length → stl.data.all styleCharOk = true →
      sanitizeUrl cfgDemo msOpt (msParts (msQuery "500" "100" "5" "10" "10" ++
        [("style", stl)])) = .error .invalidStyle) := by
  refine ⟨by decide, by decide, by decide, ?_⟩
  intro stl hlen hcls
  have hne : stl ≠ "" := by
    intro hc
    rw [hc] at hlen
    exact absurd hlen (by decide)
  have h1 : validate (msQuery "500" "100" "5" "10" "10" ++ [("style", stl)])
      "width" 1 4096 false = .ok () :=
    validate_ok_int rfl (by decide) (by decide) (by decide)
  have h2 : validate (msQuery "500" "100" "5" "10" "10" ++ [("style", stl)])
      "height" 1 4096 false = .ok () :=
    validate_ok_int rfl (by decide) (by decide) (by decide)
  have h3 : validate (msQuery "500" "100" "5" "10" "10" ++ [("style", stl)])
      "zoom" 0 22 false = .ok () :=
    validate_ok_int rfl (by decide) (by decide) (by decide)
  have h4 : validate (msQuery "500" "100" "5" "10" "10" ++ [("style", stl)])
      "lat" (-90) 90 true = .ok () :=
    validate_ok_float rfl (by decide) (by decide) (by decide)
  have h5 : validate (msQuery "500" "100" "5" "10" "10" ++ [("style", stl)])
      "lon" (-180) 180 true = .ok () :=
    validate_ok_float rfl (by decide) (by decide) (by decide)
  exact msnap_badstyle cfgDemo msOpt
    (msParts (msQuery "500" "100" "5" "10" "10" ++ [("style", stl)]))
    ⟨"wikimedia.org", "https:"⟩ "maps.wikimedia.org" "https:" rfl
    (by decide) rfl rfl h1 h2 h3 h4 h5 rfl hne (styleRegexOk_false_of_len hlen)

/-- C6 witness: the general multi-character clause instantiated at the
default style name itself. -/
theorem c6_style_regex_rejects_multichar_witness :
    sanitizeUrl cfgDemo msOpt (msParts (msQuery "500" "100" "5" "10" "10" ++
      [("style", "osm-intl")])) = .error .invalidStyle :=
  c6_style_regex_rejects_multichar.2.2.2 "osm-intl" (by decide) (by decide)

/-- A successful run of the shared open tail keeps the sanitized host. -/
theorem openWikititle_host {sh : SanHost} {opt : Opt} {parts : UrlParts}
    {decoded gp : String} {r : SanResult}
    (h : openWikititle sh opt parts decoded gp = .ok r) : r.host = sh.host := by
  unfold openWikititle at h
  split at h
  · exact Except.noConfusion h
  · split at h
    · exact Except.noConfusion h
    · cases h
      rfl

set_option maxHeartbeats 1600000 in
/-- C1: for an untrusted caller, `sanitizeUrl` produces no URL for a host
that fails `sanitizeHost` — it throws the unlisted-host error — and
whenever it succeeds, the host of the resulting request passed `testHost`
for the scheme resolved for it (the `sanitizeHost`-resolved scheme, or the
external service's own scheme when that branch re-validated the host). -/
theorem c1_untrusted_allowlist_invariant (cfg : Config) (opt : Opt)
    (parts : UrlParts) (hu : cfg.isTrusted = false) :
    (sanitizeHost cfg parts.host = none →
       sanitizeUrl cfg opt parts = .error (.hostNotWhitelisted (fixUrl opt.url))) ∧
    (∀ r, sanitizeUrl cfg opt parts = .ok r →
       ∃ scheme, testHost cfg scheme r.host = true) := by
  constructor
  · intro h
    unfold sanitizeUrl
    rw [h]
  · intro r hr
    cases hsh : sanitizeHost cfg parts.host with
    | none =>
      unfold sanitizeUrl at hr
      rw [hsh] at hr
      exact Except.noConfusion hr
    | some sh =>
      simp only [sanitizeUrl, hsh] at hr
      generalize hU : fixUrl opt.url = U at hr
      generalize hP : resolvedProtocol parts.protocol sh.protocol
        (isProtoRelativeUrl U) = P at hr
      cases ho : (opt.type == some "open") <;>
        simp only [ho, Bool.false_eq_true, eq_self_iff_true, if_false, if_true] at hr
      all_goals repeat' split at hr
      all_goals try exact Except.noConfusion hr
      all_goals try exact ⟨sh.protocol, by
        rw [openWikititle_host hr]; exact sanitizeHost_testHost hsh⟩
      all_goals simp only [httpFetchCase, wikiapiCase, wikirestCase, wikirawCase,
        tabularCase, wikifileCase, wikirawuploadCase, wikidatasparqlCase,
        geoshapeCase, mapsnapshotCase, hu] at hr
      all_goals repeat' split at hr
      all_goals try exact Except.noConfusion hr
      all_goals (injection hr with hinj; subst hinj)
      all_goals first
        | exact ⟨sh.protocol, sanitizeHost_testHost hsh⟩
        | exact ⟨_, validateExternalService_testHost (by assumption)⟩

/-- C1 witness: an untrusted `wikiraw:` request over the demo
configuration succeeds, and the unlisted-host clause fires on a rejected
host; both via the invariant. -/
theorem c1_untrusted_allowlist_invariant_witness :
    sanitizeUrl cfgDemo { url := "wikiraw:///x", type := none, headers := [] }
      { host := "evil.com", protocol := some "wikiraw:", pathname := "/x",
        query := [], isRelativeHost := true } =
      .error (.hostNotWhitelisted "wikiraw:///x") := by
  have h := (c1_untrusted_allowlist_invariant cfgDemo
    { url := "wikiraw:///x", type := none, headers := [] }
    { host := "evil.com", protocol := some "wikiraw:", pathname := "/x",
      query := [], isRelativeHost := true } rfl).1 (by decide)
  simpa using h

/-- A constant `JSON.parse` oracle, for concrete normalizer runs. -/
def jpConst (v : JValue) : String → Option JValue := fun _ => some v

/-- C8 counterexample: a payload parsing to an object with an `error` field
whose value is JSON `null` has the field present, yet normalization under
the `wikiapi` tag succeeds and hands the parsed data to the caller: the
source checks `if (data.error)`, JS truthiness, not field presence. -/
theorem c8_falsy_error_field_not_fatal :
    (getField (JValue.obj [("error", JValue.null)]) "error").isSome = true ∧
    parseMWApiResponse (jpConst (.obj [("error", .null)])) "payload" =
      .ok (.obj [("error", .null)], []) ∧
    dataParser (jpConst (.obj [("error", .null)])) (fun v => v) none "payload"
      "wikiapi:" "u" =
      (none, some (.asJson (.obj [("error", .null)])), []) := by
  exact ⟨rfl, rfl, rfl⟩

/-- A successful property read implies the value read from was not JSON
`null` (reads on `null` are the `TypeError` path). -/
theorem getField_some_not_null {v : JValue} {k : String} {e : JValue}
    (h : getField v k = some e) : jsNull v = false := by
  cases v <;> first | rfl | exact Option.noConfusion h

/-- C8 amended: under the `wikiapi` tag, a payload parsing to JSON `null`
fails with the `TypeError` thrown by reading `data.error` on `null`; a
payload whose parsed object has a truthy `error` field fails with the
upstream-api error carrying that field's content and the caller receives
no data; when the parsed value is not `null` and the `error` field is
absent or falsy, a truthy `warnings` field is handed to the logger and the
parsed data is returned — a warnings field never causes the request to
fail. -/
theorem c8_wikiapi_normalization (jp : String → Option JValue)
    (pwv : JValue → JValue) (s url : String) (v : JValue) (hjp : jp s = some v) :
    (v = .null →
       parseMWApiResponse jp s = .error .typeError ∧
       dataParser jp pwv none s "wikiapi:" url = (some .typeError, none, [])) ∧
    (∀ e, getField v "error" = some e → truthy e = true →
       parseMWApiResponse jp s = .error (.apiError e) ∧
       dataParser jp pwv none s "wikiapi:" url = (some (.apiError e), none, [])) ∧
    (jsNull v = false → truthyField v "error" = false →
       (∀ w, getField v "warnings" = some w → truthy w = true →
          dataParser jp pwv none s "wikiapi:" url = (none, some (.asJson v), [w])) ∧
       (truthyField v "warnings" = false →
          dataParser jp pwv none s "wikiapi:" url = (none, some (.asJson v), []))) := by
  refine ⟨?_, ?_, ?_⟩
  · intro hv
    subst hv
    have hm : parseMWApiResponse jp s = .error .typeError := by
      simp only [parseMWApiResponse, hjp]
      rfl
    refine ⟨hm, ?_⟩
    simp only [dataParser, parseDataOrThrow, hm]
    rfl
  · intro e he ht
    have hnull : jsNull v = false := getField_some_not_null he
    have hm : parseMWApiResponse jp s = .error (.apiError e) := by
      simp only [parseMWApiResponse, hjp, hnull, Bool.false_eq_true, if_false,
        he, ht]
      rfl
    refine ⟨hm, ?_⟩
    simp only [dataParser, parseDataOrThrow, hm]
    rfl
  · intro hnull hfe
    have hok : ∀ ws, parseMWApiResponse jp s = .ok (v, ws) →
        dataParser jp pwv none s "wikiapi:" url = (none, some (.asJson v), ws) := by
      intro ws hm
      simp only [dataParser, parseDataOrThrow, hm]
      rfl
    constructor
    · intro w hw htw
      refine hok [w] ?_
      cases hge : getField v "error" with
      | none =>
        simp only [parseMWApiResponse, hjp, hnull, Bool.false_eq_true, if_false,
          hge, hw, htw]
        rfl
      | some e =>
        have hte : truthy e = false := by
          unfold truthyField at hfe
          rw [hge] at hfe
          exact hfe
        simp only [parseMWApiResponse, hjp, hnull, Bool.false_eq_true, if_false,
          hge, hte, hw, htw]
        rfl
    · intro hfw
      refine hok [] ?_
      have hwcase : (match getField v "warnings" with
          | some w => if truthy w then (Except.ok (v, [w]) : Except ParseError (JValue × List JValue))
            else Except.ok (v, ([] : List JValue))
          | none => Except.ok (v, ([] : List JValue))) =
          Except.ok (v, ([] : List JValue)) := by
        cases hgw : getField v "warnings" with
        | none => rfl
        | some w =>
          have htw : truthy w = false := by
            unfold truthyField at hfw
            rw [hgw] at hfw
            exact hfw
          simp only [htw]
          rfl
      cases hge : getField v "error" with
      | none =>
        simp only [parseMWApiResponse, hjp, hnull, Bool.false_eq_true, if_false,
          hge]
        exact hwcase
      | some e =>
        have hte : truthy e = false := by
          unfold truthyField at hfe
          rw [hge] at hfe
          exact hfe
        simp only [parseMWApiResponse, hjp, hnull, Bool.false_eq_true, if_false,
          hge, hte]
        simpa using hwcase

/-- C8 amended witness: a payload with only a truthy `warnings` field is
logged and returned, not failed. -/
theorem c8_wikiapi_normalization_witness :
    dataParser (jpConst (.obj [("warnings", .str "deprecated")])) (fun v => v)
      none "payload" "wikiapi:" "u" =
      (none, some (.asJson (.obj [("warnings", .str "deprecated")])),
       [.str "deprecated"]) := by
  exact ((c8_wikiapi_normalization (jpConst (.obj [("warnings", .str "deprecated")]))
    (fun v => v) "payload" "u" (.obj [("warnings", .str "deprecated")]) rfl).2.2
    rfl rfl).1 (.str "deprecated") rfl rfl

end VW
